import Mathlib

/-!
Verification development for the financeAPI repository: a shallow embedding
of the recurring-transaction engine (`src/services/recurringService.js`),
the budget ledger maintenance in the transaction CRUD handlers and the
budget recalculate handler, the goal-share permission model
(`src/models/GoalShare.js` and the goal-share routes), and the goal
completion logic (goal model pre-save hook and the add-amount handler).

Modelling conventions, used throughout:
* Mongo ObjectIds are modelled as `Nat`.
* Monetary amounts are modelled as `Int` (the claims under study are
  bookkeeping identities; none depends on decimal rounding).
* JavaScript `Date` values are modelled at day granularity by `SDate`
  (year, month, day).  Every date window in the source closes at
  23:59:59 of its last day, so day granularity is exact for the
  source's `$gte`/`$lte` filters.
* Document collections are lists; Mongoose queries become list
  `find?`/`filter` over them.  `createdAt`/`updatedAt` timestamps are
  not tracked (no modelled behaviour reads them).
* The duplicate guard in `wasProcessedToday` builds a regular
  expression `^<description> \(Recorrente\)$` from the template's
  description.  For descriptions free of regex metacharacters this is
  exactly string equality with `description ++ " (Recorrente)"`, which
  is how the match is modelled here.
-/

/-- Transaction type: the `type` enum `['income', 'expense']` of the
transaction schema (`src/models/Category.js`, bundled transaction model). -/
inductive TxType where
  | income
  | expense
deriving DecidableEq, Repr

/-- Calendar date at day granularity (see header note on date modelling). -/
structure SDate where
  year : Nat
  month : Nat
  day : Nat
deriving DecidableEq, Repr

/-- Leap-year rule used by JavaScript `Date` month arithmetic. -/
def isLeapYear (y : Nat) : Bool :=
  (y % 4 == 0 && y % 100 != 0) || y % 400 == 0

/-- Number of days in a month; `new Date(year, month, 0)` in the source
evaluates to the last day of `month`, which this reproduces. -/
def daysInMonth (y m : Nat) : Nat :=
  if m == 2 then (if isLeapYear y then 29 else 28)
  else if m == 4 || m == 6 || m == 9 || m == 11 then 30
  else 31

/-- Lexicographic order on dates, the order `$gte`/`$lte` use on `Date`. -/
def SDate.le (a b : SDate) : Bool :=
  a.year < b.year ||
    (a.year == b.year &&
      (a.month < b.month || (a.month == b.month && a.day ≤ b.day)))

/-- `date: { $gte: startDate, $lte: endDate }` with
`startDate = new Date(year, month-1, 1)` and
`endDate = new Date(year, month, 0, 23, 59, 59)`
(recalculate handler, `src/routes/goals.js` lines 1203-1212). -/
def inMonthWindow (y m : Nat) (d : SDate) : Bool :=
  SDate.le ⟨y, m, 1⟩ d && SDate.le d ⟨y, m, daysInMonth y m⟩

/-- A document of the `transactions` collection (transaction schema in
`src/models/Category.js`, bundled).  `isPaused` is written by
`pauseRecurringTransaction` in `src/services/recurringService.js`; the
schema does not declare the field, so the flag is modelled generously as
persisted state (the engine's behaviour towards it is identical either
way, since its template query never mentions it). -/
structure Transaction where
  id : Nat
  userId : Nat
  description : String
  amount : Int
  type : TxType
  category : Nat
  date : SDate
  isRecurring : Bool
  recurringDay : Option Nat
  budgetId : Option Nat
  isPaused : Bool
deriving DecidableEq, Repr

/-- A document of the `budgets` collection (`src/models/Budget` as used by
the budget routes bundled in `src/routes/goals.js`). -/
structure Budget where
  id : Nat
  userId : Nat
  category : Nat
  month : Nat
  year : Nat
  monthlyLimit : Int
  spent : Int
  isActive : Bool
deriving DecidableEq, Repr

/-- The persistent store consumed by the handlers under study:
the `transactions` and `budgets` collections, plus the id supply used
for newly inserted transactions. -/
structure Store where
  txs : List Transaction
  budgets : List Budget
  nextId : Nat
deriving DecidableEq, Repr

/-- `Budget.findByIdAndUpdate(budgetId, { $inc: { spent: delta } })`:
an atomic single-document increment; a no-op when no budget has this id
(a dangling reference is tolerated, matching the source). -/
def incSpent (budgets : List Budget) (budgetId : Nat) (delta : Int) :
    List Budget :=
  budgets.map (fun b => if b.id == budgetId then { b with spent := b.spent + delta } else b)

/-- The `$match` filter of the recalculate handler's aggregation
(`src/routes/goals.js` lines 1206-1214): expense transactions of user
`uid` referencing budget `bid`, dated inside the month window. -/
def recalcMatch (bid uid : Nat) (y m : Nat) (t : Transaction) : Bool :=
  t.budgetId == some bid && t.userId == uid && t.type == .expense &&
    inMonthWindow y m t.date

/-- The `$group`/`$sum` of the recalculate aggregation: total amount of
the matched transactions. -/
def recalcSum (txs : List Transaction) (bid uid : Nat) (y m : Nat) : Int :=
  ((txs.filter (recalcMatch bid uid y m)).map (fun t => t.amount)).sum

/-- Request body of `POST /api/transactions` after the express-validator
layer (`src/unnamed/part_002` lines 96-127): all transaction fields
except the id, which the store assigns. -/
structure TxData where
  userId : Nat
  description : String
  amount : Int
  type : TxType
  category : Nat
  date : SDate
  isRecurring : Bool
  recurringDay : Option Nat
  budgetId : Option Nat
deriving DecidableEq, Repr

/-- Build the stored document from the request data, with the id issued
by the store. -/
def TxData.toTx (d : TxData) (id : Nat) : Transaction :=
  { id := id, userId := d.userId, description := d.description,
    amount := d.amount, type := d.type, category := d.category,
    date := d.date, isRecurring := d.isRecurring,
    recurringDay := d.recurringDay, budgetId := d.budgetId,
    isPaused := false }

/-- `POST /` create-transaction handler (`src/unnamed/part_002` lines
96-154): reject a recurring transaction without `recurringDay`
(400, state unchanged), otherwise save the transaction and, when it is
an expense referencing a budget, `$inc` that budget's `spent` by its
amount. -/
def createTransaction (s : Store) (d : TxData) : Store :=
  if d.isRecurring && d.recurringDay.isNone then s
  else
    let t := d.toTx s.nextId
    let budgets :=
      match t.budgetId with
      | some bid => if t.type == .expense then incSpent s.budgets bid t.amount else s.budgets
      | none => s.budgets
    { txs := s.txs ++ [t], budgets := budgets, nextId := s.nextId + 1 }

/-- Request body of `PUT /api/transactions/:id`: the optional fields the
route validates (`src/unnamed/part_002` lines 253-261). -/
structure TxPatch where
  description : Option String
  amount : Option Int
  type : Option TxType
  category : Option Nat
  date : Option SDate
  isRecurring : Option Bool
  recurringDay : Option Nat
  budgetId : Option Nat
deriving DecidableEq, Repr

/-- `findByIdAndUpdate(id, { ...req.body })`: fields present in the body
overwrite the stored document. -/
def TxPatch.apply (p : TxPatch) (t : Transaction) : Transaction :=
  { t with
    description := p.description.getD t.description,
    amount := p.amount.getD t.amount,
    type := p.type.getD t.type,
    category := p.category.getD t.category,
    date := p.date.getD t.date,
    isRecurring := p.isRecurring.getD t.isRecurring,
    recurringDay := if p.recurringDay.isSome then p.recurringDay else t.recurringDay,
    budgetId := if p.budgetId.isSome then p.budgetId else t.budgetId }

/-- `Transaction.findOne({ _id: id, userId: uid })`. -/
def findTx (txs : List Transaction) (id uid : Nat) : Option Transaction :=
  txs.find? (fun t => t.id == id && t.userId == uid)

/-- `PUT /:id` update-transaction handler (`src/unnamed/part_002` lines
253-319): 404 leaves the store unchanged; otherwise decrement the old
version's budget (if the old version was an expense referencing one),
apply the body to the document, and increment the new version's budget
(if the new version is an expense referencing one).  The two
adjustments are independent and may target different budgets. -/
def updateTransaction (s : Store) (id uid : Nat) (p : TxPatch) : Store :=
  match findTx s.txs id uid with
  | none => s
  | some oldTx =>
    let budgets1 :=
      match oldTx.budgetId with
      | some bid => if oldTx.type == .expense then incSpent s.budgets bid (-oldTx.amount) else s.budgets
      | none => s.budgets
    let newTx := p.apply oldTx
    let txs := s.txs.map (fun t => if t.id == id then newTx else t)
    let budgets2 :=
      match newTx.budgetId with
      | some bid => if newTx.type == .expense then incSpent budgets1 bid newTx.amount else budgets1
      | none => budgets1
    { txs := txs, budgets := budgets2, nextId := s.nextId }

/-- `DELETE /:id` delete-transaction handler (`src/unnamed/part_002`
lines 322-357): 404 leaves the store unchanged; otherwise decrement the
budget if the transaction was an expense referencing one, then remove
the document. -/
def deleteTransaction (s : Store) (id uid : Nat) : Store :=
  match findTx s.txs id uid with
  | none => s
  | some t =>
    let budgets :=
      match t.budgetId with
      | some bid => if t.type == .expense then incSpent s.budgets bid (-t.amount) else s.budgets
      | none => s.budgets
    { txs := s.txs.filter (fun u => u.id != id), budgets := budgets, nextId := s.nextId }

/-- `Budget.findOne({ _id: id, userId: uid })`. -/
def findBudget (budgets : List Budget) (id uid : Nat) : Option Budget :=
  budgets.find? (fun b => b.id == id && b.userId == uid)

/-- The success payload of the recalculate route: the relevant fields of
`{ ...budget.toObject(), oldSpent: budget.spent, newSpent: newSpentAmount }`
(`src/routes/goals.js` lines 1229-1237), built after `budget.spent` has
already been overwritten with the recomputed value. -/
structure RecalcResponse where
  spent : Int
  oldSpent : Int
  newSpent : Int
deriving DecidableEq, Repr

/-- `PATCH /:id/recalculate` budget recalculate handler
(`src/routes/goals.js` lines 1188-1245): find the caller's budget (404
leaves the store unchanged and returns no payload), aggregate the total
of the caller's expense transactions referencing it inside its month
window, overwrite `spent` with that total, and answer with the payload
built from the already-updated document. -/
def recalculateBudget (s : Store) (id uid : Nat) :
    Store × Option RecalcResponse :=
  match findBudget s.budgets id uid with
  | none => (s, none)
  | some b =>
    let newSpentAmount := recalcSum s.txs b.id uid b.year b.month
    let b2 := { b with spent := newSpentAmount }
    let budgets := s.budgets.map (fun x => if x.id == b.id then b2 else x)
    ({ s with budgets := budgets },
     some { spent := b2.spent, oldSpent := b2.spent, newSpent := newSpentAmount })

/-- The duplicate-guard match of `wasProcessedToday`
(`src/services/recurringService.js` lines 101-112): an existing
non-recurring transaction of the same user with description
`"<template.description> (Recorrente)"`, same amount, type and
category, dated today.  See the header note on the regex modelling. -/
def matchesGuard (tpl e : Transaction) (today : SDate) : Bool :=
  e.userId == tpl.userId &&
    e.description == tpl.description ++ " (Recorrente)" &&
    e.amount == tpl.amount &&
    e.type == tpl.type &&
    e.category == tpl.category &&
    e.date == today &&
    e.isRecurring == false

/-- `wasProcessedToday(recurringTransaction)`
(`src/services/recurringService.js` lines 95-115): `findOne` for a
matching materialized copy dated within [start of today, end of today]. -/
def wasProcessedToday (txs : List Transaction) (tpl : Transaction)
    (today : SDate) : Bool :=
  txs.any (fun e => matchesGuard tpl e today)

/-- The materialized copy built from a template
(`src/services/recurringService.js` lines 41-50): owner, amount, type,
category and budget reference copied, description suffixed with the
fixed marker, dated now, `isRecurring: false`. -/
def materialize (tpl : Transaction) (today : SDate) (id : Nat) :
    Transaction :=
  { id := id, userId := tpl.userId,
    description := tpl.description ++ " (Recorrente)",
    amount := tpl.amount, type := tpl.type, category := tpl.category,
    date := today, isRecurring := false, recurringDay := none,
    budgetId := tpl.budgetId, isPaused := false }

/-- One entry of the engine's per-template detail list
(`src/services/recurringService.js` lines 63-70 and 76-80):
the template id, the new transaction id on success, and the
success/error status (message strings elided). -/
structure RunDetail where
  originalId : Nat
  newId : Option Nat
  isError : Bool
deriving DecidableEq, Repr

/-- The engine's aggregate `results` object
(`src/services/recurringService.js` lines 24-28). -/
structure RunResults where
  processed : Nat
  errors : Nat
  details : List RunDetail
deriving DecidableEq, Repr

/-- Loop state of the engine's per-template `for` loop: the store being
mutated and the `results` accumulator. -/
structure EngineAcc where
  store : Store
  results : RunResults
deriving DecidableEq, Repr

/-- One iteration of the per-template loop
(`src/services/recurringService.js` lines 30-83).  Persistence failure
while saving the new transaction is the representative failure point of
the `try` block; it is modelled by the oracle `failOn` on the template
id.  A failed save adds an error detail and leaves the store untouched
(the `catch` branch); a skipped template (`alreadyProcessed`) records
nothing, matching the bare `continue`. -/
def processTemplate (today : SDate) (failOn : Nat → Bool)
    (acc : EngineAcc) (tpl : Transaction) : EngineAcc :=
  if wasProcessedToday acc.store.txs tpl today then acc
  else if failOn tpl.id then
    { acc with
      results := { acc.results with
        errors := acc.results.errors + 1,
        details := acc.results.details ++
          [{ originalId := tpl.id, newId := none, isError := true }] } }
  else
    let c := materialize tpl today acc.store.nextId
    let budgets :=
      match c.budgetId with
      | some bid => if c.type == .expense then incSpent acc.store.budgets bid c.amount else acc.store.budgets
      | none => acc.store.budgets
    { store := { txs := acc.store.txs ++ [c], budgets := budgets,
                 nextId := acc.store.nextId + 1 },
      results := { acc.results with
        processed := acc.results.processed + 1,
        details := acc.results.details ++
          [{ originalId := tpl.id, newId := some c.id, isError := false }] } }

/-- The engine's template query
(`src/services/recurringService.js` lines 14-17):
`Transaction.find({ isRecurring: true, recurringDay: currentDay })`.
Note that it does not filter on `isPaused`. -/
def dueTemplates (txs : List Transaction) (today : SDate) :
    List Transaction :=
  txs.filter (fun t => t.isRecurring && t.recurringDay == some today.day)

/-- `processRecurringTransactions()`
(`src/services/recurringService.js` lines 6-92): query the templates
due today; when none are due, log and return without a result (the bare
`return` — JavaScript `undefined`, modelled as `none`); otherwise run
the per-template loop and return the aggregate `results`. -/
def processRecurringTransactions (today : SDate) (failOn : Nat → Bool)
    (s : Store) : Option RunResults × Store :=
  let due := dueTemplates s.txs today
  if due.isEmpty then (none, s)
  else
    let acc := due.foldl (processTemplate today failOn)
      { store := s, results := { processed := 0, errors := 0, details := [] } }
    (some acc.results, acc.store)

/-- `pauseRecurringTransaction(transactionId, userId)`
(`src/services/recurringService.js` lines 200-222): find the user's
recurring transaction and set `isPaused = true` (failure when it does
not exist is modelled as an unchanged store).  The transaction schema
does not declare `isPaused`; the flag is modelled generously as
persisted (see the `Transaction` doc comment). -/
def pauseRecurringTransaction (s : Store) (id uid : Nat) : Store :=
  match s.txs.find? (fun t => t.id == id && t.userId == uid && t.isRecurring) with
  | none => s
  | some _ =>
    { s with txs := s.txs.map (fun t =>
        if t.id == id && t.userId == uid && t.isRecurring
        then { t with isPaused := true } else t) }

/-- Collaborator role: the `role` enum of the goal-share schema
(`src/models/GoalShare.js` lines 19-23). -/
inductive Role where
  | viewer
  | contributor
  | coOwner
deriving DecidableEq, Repr

/-- Invitation status: the `status` enum of the goal-share schema
(`src/models/GoalShare.js` lines 24-28). -/
inductive ShareStatus where
  | pending
  | accepted
  | rejected
deriving DecidableEq, Repr

/-- The derived `permissions` sub-document of the goal-share schema
(`src/models/GoalShare.js` lines 37-42). -/
structure Permissions where
  canAddAmount : Bool
  canEdit : Bool
  canDelete : Bool
  canInviteOthers : Bool
deriving DecidableEq, Repr

/-- A document of the `goalshares` collection
(`src/models/GoalShare.js`; invite token, contribution and timestamp
fields elided: no modelled operation reads them). -/
structure GoalShare where
  id : Nat
  goal : Nat
  owner : Nat
  sharedWith : Nat
  role : Role
  status : ShareStatus
  permissions : Permissions
deriving DecidableEq, Repr

/-- The role → permission table of the goal-share `pre('save')` hook's
`switch` (`src/models/GoalShare.js` lines 66-91). -/
def permissionsFor : Role → Permissions
  | .viewer =>
    { canAddAmount := false, canEdit := false, canDelete := false,
      canInviteOthers := false }
  | .contributor =>
    { canAddAmount := true, canEdit := false, canDelete := false,
      canInviteOthers := false }
  | .coOwner =>
    { canAddAmount := true, canEdit := true, canDelete := false,
      canInviteOthers := true }

/-- The goal-share `pre('save')` hook (`src/models/GoalShare.js` lines
64-94): when the `role` path is modified, overwrite `permissions` with
the table value for the current role; otherwise leave the document
unchanged. -/
def goalSharePreSave (s : GoalShare) (roleModified : Bool) : GoalShare :=
  if roleModified then { s with permissions := permissionsFor s.role } else s

/-- Goal status: the `status` enum of the goal schema
(`src/unnamed/part_005` lines 46-50). -/
inductive GoalStatus where
  | active
  | completed
  | paused
deriving DecidableEq, Repr

/-- A document of the `goals` collection (goal schema in
`src/unnamed/part_005` lines 3-55; title, description, category and the
date fields elided: no modelled operation reads them). -/
structure Goal where
  id : Nat
  userId : Nat
  targetAmount : Int
  currentAmount : Int
  status : GoalStatus
deriving DecidableEq, Repr

/-- `GoalShare.findById(shareId)`. -/
def findShare (shares : List GoalShare) (id : Nat) : Option GoalShare :=
  shares.find? (fun sh => sh.id == id)

/-- `Goal.findById(goalId)` (by id only, as `populate('goal')` does). -/
def findGoal (goals : List Goal) (id : Nat) : Option Goal :=
  goals.find? (fun g => g.id == id)

/-- Outcome of the role-update route, by HTTP status class:
404, 403, 500 (the `populate`d goal being absent makes the handler
throw into its `catch`), or success carrying the saved share. -/
inductive UpdateRoleOutcome where
  | notFound
  | forbidden
  | internalError
  | updated (share : GoalShare)
deriving DecidableEq, Repr

/-- `PATCH /goal-shares/:shareId/role` handler (`src/unnamed/part_003`
lines 388-452), after the role-string validation (the model takes an
already-typed `Role`): find the share (404 when absent); refuse with
403 when the caller is the share's own `sharedWith` (the handler's
first validation, before any ownership check); then require the caller
to be the goal owner or an accepted co-owner share with
`canInviteOthers` (403 otherwise); on success assign the role and save,
the save hook rederiving the permissions when the role changed. -/
def updateRoleHandler (shares : List GoalShare) (goals : List Goal)
    (shareId actorId : Nat) (newRole : Role) : UpdateRoleOutcome :=
  match findShare shares shareId with
  | none => .notFound
  | some share =>
    if share.sharedWith == actorId then .forbidden
    else
      match findGoal goals share.goal with
      | none => .internalError
      | some goal =>
        let saved := goalSharePreSave { share with role := newRole }
          (share.role != newRole)
        if goal.userId == actorId then .updated saved
        else
          match shares.find? (fun us =>
              us.goal == goal.id && us.sharedWith == actorId &&
                us.status == .accepted) with
          | none => .forbidden
          | some us =>
            if us.permissions.canInviteOthers then .updated saved
            else .forbidden

/-- The goal `pre('save')` hook (`src/unnamed/part_005` lines 109-119):
flip an `active` goal to `completed` the moment `currentAmount` reaches
`targetAmount`; touch nothing otherwise. -/
def goalPreSave (g : Goal) : Goal :=
  if decide (g.currentAmount ≥ g.targetAmount) && g.status == .active
  then { g with status := .completed } else g

/-- Core of the `PATCH /:id/add-amount` handler
(`src/routes/goals.js` lines 250-258): add the amount, mark the goal
`completed` when the new total reaches the target and the goal is not
already completed, then `save()` — which runs the `pre('save')` hook. -/
def addAmountGoal (g : Goal) (amount : Int) : Goal :=
  let g1 := { g with currentAmount := g.currentAmount + amount }
  let g2 :=
    if decide (g1.currentAmount ≥ g1.targetAmount) && g1.status != .completed
    then { g1 with status := .completed } else g1
  goalPreSave g2

/-- `PATCH /:id/add-amount` over the `goals` collection: find the
caller's goal (404 leaves the collection unchanged), apply
`addAmountGoal`, save the result back. -/
def addAmountHandler (goals : List Goal) (goalId uid : Nat)
    (amount : Int) : List Goal :=
  match goals.find? (fun g => g.id == goalId && g.userId == uid) with
  | none => goals
  | some _ =>
    goals.map (fun g =>
      if g.id == goalId && g.userId == uid then addAmountGoal g amount else g)

/-- The fields the duplicate guard compares between a template and a
candidate copy, as a relation between two templates: two templates with
the same owner, description, amount, type and category are
indistinguishable to the guard. -/
def sameKey (a b : Transaction) : Bool :=
  a.userId == b.userId && a.description == b.description &&
    a.amount == b.amount && a.type == b.type && a.category == b.category

/-- Number of stored transactions the duplicate guard accepts as "the
materialized copy of `tpl` today". -/
def countMatching (txs : List Transaction) (tpl : Transaction)
    (today : SDate) : Nat :=
  (txs.filter (fun e => matchesGuard tpl e today)).length

/-- Classification of one loop iteration of the engine: skipped by the
duplicate guard, failed (the `catch` branch), or materialized. -/
inductive TOutcome where
  | skipped
  | errored
  | created
deriving DecidableEq, Repr

/-- The outcome `processTemplate` takes on a template in a given loop
state. -/
def templateOutcome (today : SDate) (failOn : Nat → Bool)
    (acc : EngineAcc) (tpl : Transaction) : TOutcome :=
  if wasProcessedToday acc.store.txs tpl today then .skipped
  else if failOn tpl.id then .errored
  else .created

/-- The outcomes of the per-template loop run over a template list from
a given loop state, template by template. -/
def templateOutcomes (today : SDate) (failOn : Nat → Bool) :
    EngineAcc → List Transaction → List TOutcome
  | _, [] => []
  | acc, t :: ts =>
    templateOutcome today failOn acc t ::
      templateOutcomes today failOn (processTemplate today failOn acc t) ts

/-- Modelled from the spec's words (for comparison with `recalcSum`):
"the sum of amounts of all expense Transactions whose budgetId
references that budget and whose date lies inside [first day of
budget.month/year, end of that month 23:59:59]" — with no restriction
on the transaction's owner. -/
def claimRecalcSum (txs : List Transaction) (bid : Nat) (y m : Nat) :
    Int :=
  ((txs.filter (fun t =>
      t.budgetId == some bid && t.type == .expense &&
        inMonthWindow y m t.date)).map (fun t => t.amount)).sum

/-- A transaction's budget reference is honest towards a budget list:
whenever an expense transaction references a listed budget, it belongs
to that budget's owner and is dated inside the budget's month window. -/
def refOK (budgets : List Budget) (t : Transaction) : Prop :=
  ∀ b ∈ budgets, t.budgetId = some b.id → t.type = .expense →
    (t.userId = b.userId ∧ inMonthWindow b.year b.month t.date = true)

/-- Store well-formedness: every stored transaction's budget reference
is honest, document ids are unique (Mongo `_id` uniqueness), and the id
supply is fresh. -/
def StoreWF (s : Store) : Prop :=
  (∀ t ∈ s.txs, refOK s.budgets t) ∧
    (s.txs.map (fun t => t.id)).Nodup ∧
    (s.budgets.map (fun b => b.id)).Nodup ∧
    ∀ t ∈ s.txs, t.id < s.nextId

/-- The reconciler invariant: every budget's denormalized `spent` equals
the value the recalculate aggregation would produce for it. -/
def spentConsistent (s : Store) : Prop :=
  ∀ b ∈ s.budgets, b.spent = recalcSum s.txs b.id b.userId b.year b.month

/-- One transaction CRUD operation reaching the budget reconciler. -/
inductive TxOp where
  | create (d : TxData)
  | update (id uid : Nat) (p : TxPatch)
  | delete (id uid : Nat)
deriving DecidableEq, Repr

/-- Dispatch of a CRUD operation to its route handler. -/
def applyTxOp (s : Store) : TxOp → Store
  | .create d => createTransaction s d
  | .update id uid p => updateTransaction s id uid p
  | .delete id uid => deleteTransaction s id uid

/-- A sequence of CRUD operations, applied in order. -/
def applyTxOps (s : Store) (ops : List TxOp) : Store :=
  ops.foldl applyTxOp s

/-- Side condition on one operation in the state it runs in: the
transaction version it writes keeps its budget reference honest
(deletes write no version). -/
def TxOpOK (s : Store) : TxOp → Prop
  | .create d => refOK s.budgets (d.toTx s.nextId)
  | .update id uid p =>
    match findTx s.txs id uid with
    | some t => refOK s.budgets (p.apply t)
    | none => True
  | .delete _ _ => True

/-- The side condition threaded through a whole operation sequence. -/
def TxOpsOK : Store → List TxOp → Prop
  | _, [] => True
  | s, op :: ops => TxOpOK s op ∧ TxOpsOK (applyTxOp s op) ops

instance (budgets : List Budget) (t : Transaction) :
    Decidable (refOK budgets t) := by
  unfold refOK
  exact List.decidableBAll _ _

instance (s : Store) : Decidable (StoreWF s) := by
  unfold StoreWF
  infer_instance

instance (s : Store) : Decidable (spentConsistent s) := by
  unfold spentConsistent
  exact List.decidableBAll _ _

instance (s : Store) (op : TxOp) : Decidable (TxOpOK s op) := by
  cases op with
  | create d =>
    unfold TxOpOK
    infer_instance
  | update id uid p =>
    unfold TxOpOK
    dsimp only
    cases h : findTx s.txs id uid with
    | none => exact isTrue trivial
    | some t =>
      dsimp only
      infer_instance
  | delete id uid =>
    unfold TxOpOK
    infer_instance

instance decTxOpsOK : ∀ (s : Store) (ops : List TxOp),
    Decidable (TxOpsOK s ops)
  | _, [] => .isTrue trivial
  | s, op :: ops =>
    @instDecidableAnd _ _ _ (decTxOpsOK (applyTxOp s op) ops)

/-- C3: the permission set of a GoalShare is a pure, total function of
its role — viewer gets all four permissions false; contributor gets
only `canAddAmount`; co-owner gets `canAddAmount`, `canEdit` and
`canInviteOthers` but not `canDelete` — and the save hook rederives the
permissions from the role, independent of the prior permission state,
whenever the role path is modified. -/
theorem goalShare_permissions_table :
    permissionsFor .viewer =
      { canAddAmount := false, canEdit := false, canDelete := false,
        canInviteOthers := false } ∧
    permissionsFor .contributor =
      { canAddAmount := true, canEdit := false, canDelete := false,
        canInviteOthers := false } ∧
    permissionsFor .coOwner =
      { canAddAmount := true, canEdit := true, canDelete := false,
        canInviteOthers := true } ∧
    ∀ sh : GoalShare,
      (goalSharePreSave sh true).permissions = permissionsFor sh.role :=
  ⟨rfl, rfl, rfl, fun _ => rfl⟩

/-- C4: an operation that brings `currentAmount` up to `targetAmount`
while the goal is `active` completes the goal in that same operation
(both through the add-amount handler and through the bare save hook),
and neither the hook nor the add-amount handler ever moves a
`completed` goal back to `active` (the hook does not touch goals that
are not `active` at all). -/
theorem goal_completion_auto_monotone :
    (∀ (g : Goal) (a : Int), g.status = .active →
        g.targetAmount ≤ g.currentAmount + a →
        (addAmountGoal g a).status = .completed) ∧
    (∀ g : Goal, g.status = .active → g.targetAmount ≤ g.currentAmount →
        (goalPreSave g).status = .completed) ∧
    (∀ (g : Goal) (a : Int), g.status = .completed →
        (addAmountGoal g a).status = .completed) ∧
    (∀ g : Goal, g.status ≠ .active → goalPreSave g = g) := by
  refine ⟨?_, ?_, ?_, ?_⟩
  · intro g a hact hge
    simp only [addAmountGoal, goalPreSave, hact]
    simp [hge]
  · intro g hact hge
    simp [goalPreSave, hact, hge]
  · intro g a hcomp
    simp [addAmountGoal, goalPreSave, hcomp]
  · intro g hact
    simp [goalPreSave, hact]

/-- Witness for `goal_completion_auto_monotone`: scenario 3 of the spec
(target 1000, current 900, active; adding 150 completes the goal), plus
a completed goal that stays completed when more is added. -/
theorem goal_completion_auto_monotone_witness :
    (Goal.mk 1 1 1000 900 .active).status = .active ∧
    (1000 : Int) ≤ 900 + 150 ∧
    (addAmountGoal (Goal.mk 1 1 1000 900 .active) 150).status = .completed ∧
    (addAmountGoal (Goal.mk 2 1 500 600 .completed) 25).status = .completed :=
  ⟨rfl, by decide,
    goal_completion_auto_monotone.1 _ 150 rfl (by decide),
    goal_completion_auto_monotone.2.2.1 _ 25 rfl⟩

/-- C6: the role-update route refuses with Forbidden whenever the
acting user is the share's own `sharedWith` user, whatever the actor's
role or permissions, whatever the goal collection contains, and
whatever the requested new role is — the self check is the handler's
first validation after the share lookup. -/
theorem updateRole_self_forbidden (shares : List GoalShare)
    (goals : List Goal) (shareId actorId : Nat) (newRole : Role)
    (share : GoalShare) (hfind : findShare shares shareId = some share)
    (hself : share.sharedWith = actorId) :
    updateRoleHandler shares goals shareId actorId newRole = .forbidden := by
  unfold updateRoleHandler
  rw [hfind]
  simp [hself]

/-- Witness for `updateRole_self_forbidden`: a co-owner share (every
permission the model can grant) whose holder tries to change their own
role while also being listed as an accepted co-owner. -/
theorem updateRole_self_forbidden_witness :
    findShare [GoalShare.mk 5 2 1 7 .coOwner .accepted (permissionsFor .coOwner)] 5 =
      some (GoalShare.mk 5 2 1 7 .coOwner .accepted (permissionsFor .coOwner)) ∧
    (GoalShare.mk 5 2 1 7 .coOwner .accepted (permissionsFor .coOwner)).sharedWith = 7 ∧
    updateRoleHandler
      [GoalShare.mk 5 2 1 7 .coOwner .accepted (permissionsFor .coOwner)]
      [Goal.mk 2 1 1000 0 .active] 5 7 .viewer = .forbidden :=
  ⟨by decide, rfl,
    updateRole_self_forbidden _ _ 5 7 .viewer
      (GoalShare.mk 5 2 1 7 .coOwner .accepted (permissionsFor .coOwner))
      (by decide) rfl⟩

/-- C10: when the recalculate route succeeds, the `oldSpent` field of
its payload is read from `budget.spent` after the recomputed value has
already been written to it, so it always equals `newSpent` (the
recomputed aggregation value) and never exposes the pre-recalculation
`spent`. -/
theorem recalc_response_oldSpent (s : Store) (id uid : Nat) (b : Budget)
    (hb : findBudget s.budgets id uid = some b) :
    ∃ resp, (recalculateBudget s id uid).2 = some resp ∧
      resp.oldSpent = resp.newSpent ∧
      resp.newSpent = recalcSum s.txs b.id uid b.year b.month := by
  unfold recalculateBudget
  rw [hb]
  exact ⟨_, rfl, rfl, rfl⟩

/-- Witness for `recalc_response_oldSpent`: a budget with drifted
`spent = 999`; the response reports `oldSpent = newSpent = 50`, hiding
the 999. -/
theorem recalc_response_oldSpent_witness :
    findBudget [Budget.mk 1 1 5 3 2024 500 999 true] 1 1 =
      some (Budget.mk 1 1 5 3 2024 500 999 true) ∧
    ∃ resp,
      (recalculateBudget
        { txs := [Transaction.mk 10 1 "Mercado" 50 .expense 5 ⟨2024, 3, 10⟩ false none (some 1) false],
          budgets := [Budget.mk 1 1 5 3 2024 500 999 true],
          nextId := 20 } 1 1).2 = some resp ∧
      resp.oldSpent = resp.newSpent ∧
      resp.newSpent = recalcSum
        [Transaction.mk 10 1 "Mercado" 50 .expense 5 ⟨2024, 3, 10⟩ false none (some 1) false]
        1 1 2024 3 :=
  ⟨by decide,
    recalc_response_oldSpent
      { txs := [Transaction.mk 10 1 "Mercado" 50 .expense 5 ⟨2024, 3, 10⟩ false none (some 1) false],
        budgets := [Budget.mk 1 1 5 3 2024 500 999 true], nextId := 20 }
      1 1 (Budget.mk 1 1 5 3 2024 500 999 true) (by decide)⟩

/-- C7 (failing run): the engine's template query filters only on
`isRecurring` and `recurringDay`, never on `isPaused`, so a template
that `pauseRecurringTransaction` has just paused is still materialized:
here the paused template is the store's only transaction, its flag is
set, and the run still reports one processed template and appends a
materialized copy. -/
theorem engine_materializes_paused_template :
    (pauseRecurringTransaction
        { txs := [Transaction.mk 1 10 "Internet" 50 .expense 7 ⟨2024, 3, 1⟩ true (some 15) none false],
          budgets := [], nextId := 100 } 1 10).txs.map
        (fun t => t.isPaused) = [true] ∧
    (processRecurringTransactions ⟨2024, 3, 15⟩ (fun _ => false)
        (pauseRecurringTransaction
          { txs := [Transaction.mk 1 10 "Internet" 50 .expense 7 ⟨2024, 3, 1⟩ true (some 15) none false],
            budgets := [], nextId := 100 } 1 10)).1 =
      some { processed := 1, errors := 0,
             details := [{ originalId := 1, newId := some 100, isError := false }] } ∧
    (processRecurringTransactions ⟨2024, 3, 15⟩ (fun _ => false)
        (pauseRecurringTransaction
          { txs := [Transaction.mk 1 10 "Internet" 50 .expense 7 ⟨2024, 3, 1⟩ true (some 15) none false],
            budgets := [], nextId := 100 } 1 10)).2.txs.length = 2 := by
  refine ⟨by decide, by decide, by decide⟩

/-- C9 (failing run): on a day with no due templates the engine takes
the early `return` and produces no aggregate result at all (JavaScript
`undefined`, modelled as `none`) — here a recurring template exists but
is due on day 10, not on the 15th. -/
theorem engine_empty_day_no_result :
    (processRecurringTransactions ⟨2024, 3, 15⟩ (fun _ => false)
      { txs := [Transaction.mk 1 10 "Aluguel" 1200 .expense 7 ⟨2024, 3, 1⟩ true (some 10) none false],
        budgets := [], nextId := 50 }).1 = none := by decide

theorem templateOutcomes_length (today : SDate) (failOn : Nat → Bool) :
    ∀ (acc : EngineAcc) (ts : List Transaction),
      (templateOutcomes today failOn acc ts).length = ts.length := by
  intro acc ts
  induction ts generalizing acc with
  | nil => rfl
  | cons t ts ih => simp [templateOutcomes, ih]

theorem processTemplate_skipped (today : SDate) (failOn : Nat → Bool)
    (acc : EngineAcc) (t : Transaction)
    (h : wasProcessedToday acc.store.txs t today = true) :
    processTemplate today failOn acc t = acc := by
  simp [processTemplate, h]

theorem processTemplate_errored (today : SDate) (failOn : Nat → Bool)
    (acc : EngineAcc) (t : Transaction)
    (h1 : wasProcessedToday acc.store.txs t today = false)
    (h2 : failOn t.id = true) :
    processTemplate today failOn acc t =
      { acc with results :=
        { acc.results with
          errors := acc.results.errors + 1,
          details := acc.results.details ++
            [{ originalId := t.id, newId := none, isError := true }] } } := by
  simp [processTemplate, h1, h2]

theorem processTemplate_created (today : SDate) (failOn : Nat → Bool)
    (acc : EngineAcc) (t : Transaction)
    (h1 : wasProcessedToday acc.store.txs t today = false)
    (h2 : failOn t.id = false) :
    processTemplate today failOn acc t =
      { store :=
          { txs := acc.store.txs ++ [materialize t today acc.store.nextId],
            budgets :=
              match t.budgetId with
              | some bid => if t.type == .expense
                  then incSpent acc.store.budgets bid t.amount
                  else acc.store.budgets
              | none => acc.store.budgets,
            nextId := acc.store.nextId + 1 },
        results :=
          { acc.results with
            processed := acc.results.processed + 1,
            details := acc.results.details ++
              [{ originalId := t.id, newId := some acc.store.nextId,
                 isError := false }] } } := by
  simp [processTemplate, h1, h2, materialize]

theorem processTemplate_processed (today : SDate) (failOn : Nat → Bool)
    (acc : EngineAcc) (t : Transaction) :
    (processTemplate today failOn acc t).results.processed =
      acc.results.processed +
        (if templateOutcome today failOn acc t = .created then 1 else 0) := by
  cases h1 : wasProcessedToday acc.store.txs t today with
  | true => simp [processTemplate, templateOutcome, h1]
  | false =>
    cases h2 : failOn t.id with
    | true => simp [processTemplate, templateOutcome, h1, h2]
    | false => simp [processTemplate, templateOutcome, h1, h2]

theorem processTemplate_errors (today : SDate) (failOn : Nat → Bool)
    (acc : EngineAcc) (t : Transaction) :
    (processTemplate today failOn acc t).results.errors =
      acc.results.errors +
        (if templateOutcome today failOn acc t = .errored then 1 else 0) := by
  cases h1 : wasProcessedToday acc.store.txs t today with
  | true => simp [processTemplate, templateOutcome, h1]
  | false =>
    cases h2 : failOn t.id with
    | true => simp [processTemplate, templateOutcome, h1, h2]
    | false => simp [processTemplate, templateOutcome, h1, h2]

theorem processTemplate_details (today : SDate) (failOn : Nat → Bool)
    (acc : EngineAcc) (t : Transaction) :
    (processTemplate today failOn acc t).results.details =
      acc.results.details ++
        (match templateOutcome today failOn acc t with
          | .skipped => []
          | .errored => [{ originalId := t.id, newId := none, isError := true }]
          | .created => [{ originalId := t.id, newId := some acc.store.nextId,
                           isError := false }]) := by
  cases h1 : wasProcessedToday acc.store.txs t today with
  | true => simp [processTemplate, templateOutcome, h1]
  | false =>
    cases h2 : failOn t.id with
    | true => simp [processTemplate, templateOutcome, h1, h2]
    | false => simp [processTemplate, templateOutcome, h1, h2, materialize]

theorem engineFold_counts (today : SDate) (failOn : Nat → Bool) :
    ∀ (ts : List Transaction) (acc : EngineAcc),
      (ts.foldl (processTemplate today failOn) acc).results.processed =
        acc.results.processed +
          (templateOutcomes today failOn acc ts).count .created ∧
      (ts.foldl (processTemplate today failOn) acc).results.errors =
        acc.results.errors +
          (templateOutcomes today failOn acc ts).count .errored ∧
      (ts.foldl (processTemplate today failOn) acc).results.details.length =
        acc.results.details.length +
          ((templateOutcomes today failOn acc ts).count .created +
            (templateOutcomes today failOn acc ts).count .errored) := by
  intro ts
  induction ts with
  | nil => intro acc; simp [templateOutcomes]
  | cons t ts ih =>
    intro acc
    rcases ih (processTemplate today failOn acc t) with ⟨hp, he, hd⟩
    simp only [List.foldl_cons, templateOutcomes, List.count_cons]
    refine ⟨?_, ?_, ?_⟩
    · rw [hp, processTemplate_processed today failOn acc t]
      cases houtcome : templateOutcome today failOn acc t <;> simp <;> omega
    · rw [he, processTemplate_errors today failOn acc t]
      cases houtcome : templateOutcome today failOn acc t <;> simp <;> omega
    · rw [hd, processTemplate_details today failOn acc t]
      cases houtcome : templateOutcome today failOn acc t <;>
        simp [List.length_append] <;> omega

theorem engineFold_details_mono (today : SDate) (failOn : Nat → Bool) :
    ∀ (ts : List Transaction) (acc : EngineAcc) (d : RunDetail),
      d ∈ acc.results.details →
      d ∈ (ts.foldl (processTemplate today failOn) acc).results.details := by
  intro ts
  induction ts with
  | nil => intro acc d hd; simpa using hd
  | cons t ts ih =>
    intro acc d hd
    simp only [List.foldl_cons]
    refine ih _ d ?_
    rw [processTemplate_details today failOn acc t]
    exact List.mem_append_left _ hd

theorem engineFold_error_detail (today : SDate) (failOn : Nat → Bool) :
    ∀ (ts : List Transaction) (acc : EngineAcc),
      ∀ p ∈ ts.zip (templateOutcomes today failOn acc ts), p.2 = .errored →
        { originalId := p.1.id, newId := none, isError := true } ∈
          (ts.foldl (processTemplate today failOn) acc).results.details := by
  intro ts
  induction ts with
  | nil =>
    intro acc p hp
    simp [templateOutcomes] at hp
  | cons t ts ih =>
    intro acc p hp herr
    simp only [templateOutcomes, List.zip_cons_cons, List.mem_cons] at hp
    rcases hp with hhead | htail
    · subst hhead
      simp only [List.foldl_cons]
      refine engineFold_details_mono today failOn ts _ _ ?_
      rw [processTemplate_details today failOn acc t]
      simp only at herr
      rw [herr]
      simp
    · simp only [List.foldl_cons]
      exact ih (processTemplate today failOn acc t) p htail herr

/-- C8: within one run, a template whose persistence step fails is
recorded as an error entry (with its template id) in the per-template
detail list, and the failure does not abort the batch: every due
template receives an outcome (the outcome list covers the whole due
list) and the processed/error counters count exactly the created and
errored outcomes over all due templates. -/
theorem engine_failure_isolation (today : SDate) (failOn : Nat → Bool)
    (s : Store) (hne : dueTemplates s.txs today ≠ []) :
    ∃ r, (processRecurringTransactions today failOn s).1 = some r ∧
      (templateOutcomes today failOn
          { store := s, results := { processed := 0, errors := 0, details := [] } }
          (dueTemplates s.txs today)).length =
        (dueTemplates s.txs today).length ∧
      r.processed = (templateOutcomes today failOn
          { store := s, results := { processed := 0, errors := 0, details := [] } }
          (dueTemplates s.txs today)).count .created ∧
      r.errors = (templateOutcomes today failOn
          { store := s, results := { processed := 0, errors := 0, details := [] } }
          (dueTemplates s.txs today)).count .errored ∧
      ∀ p ∈ (dueTemplates s.txs today).zip (templateOutcomes today failOn
          { store := s, results := { processed := 0, errors := 0, details := [] } }
          (dueTemplates s.txs today)), p.2 = .errored →
        { originalId := p.1.id, newId := none, isError := true } ∈ r.details := by
  unfold processRecurringTransactions
  rw [if_neg (by simpa [List.isEmpty_iff] using hne)]
  refine ⟨_, rfl, templateOutcomes_length today failOn _ _, ?_, ?_, ?_⟩
  · simpa using (engineFold_counts today failOn (dueTemplates s.txs today)
      { store := s, results := { processed := 0, errors := 0, details := [] } }).1
  · simpa using (engineFold_counts today failOn (dueTemplates s.txs today)
      { store := s, results := { processed := 0, errors := 0, details := [] } }).2.1
  · exact engineFold_error_detail today failOn (dueTemplates s.txs today) _

/-- Witness for `engine_failure_isolation`: three distinct due
templates where the middle one's save fails; the run reports two
processed, one error, the error entry names the failing template, and
the template after the failing one was still processed. -/
theorem engine_failure_isolation_witness :
    dueTemplates
        [Transaction.mk 1 10 "Luz" 80 .expense 7 ⟨2024, 3, 1⟩ true (some 15) none false,
         Transaction.mk 2 10 "Agua" 40 .expense 7 ⟨2024, 3, 1⟩ true (some 15) none false,
         Transaction.mk 3 10 "Gas" 60 .expense 7 ⟨2024, 3, 1⟩ true (some 15) none false]
        ⟨2024, 3, 15⟩ ≠ [] ∧
    (∃ r, (processRecurringTransactions ⟨2024, 3, 15⟩ (fun i => i == 2)
        { txs :=
            [Transaction.mk 1 10 "Luz" 80 .expense 7 ⟨2024, 3, 1⟩ true (some 15) none false,
             Transaction.mk 2 10 "Agua" 40 .expense 7 ⟨2024, 3, 1⟩ true (some 15) none false,
             Transaction.mk 3 10 "Gas" 60 .expense 7 ⟨2024, 3, 1⟩ true (some 15) none false],
          budgets := [], nextId := 100 }).1 = some r ∧
      r.processed = 2 ∧ r.errors = 1 ∧
      { originalId := 2, newId := none, isError := true } ∈ r.details ∧
      { originalId := 3, newId := some 101, isError := false } ∈ r.details) := by
  refine ⟨by decide, ?_⟩
  rcases engine_failure_isolation ⟨2024, 3, 15⟩ (fun i => i == 2)
      { txs :=
          [Transaction.mk 1 10 "Luz" 80 .expense 7 ⟨2024, 3, 1⟩ true (some 15) none false,
           Transaction.mk 2 10 "Agua" 40 .expense 7 ⟨2024, 3, 1⟩ true (some 15) none false,
           Transaction.mk 3 10 "Gas" 60 .expense 7 ⟨2024, 3, 1⟩ true (some 15) none false],
        budgets := [], nextId := 100 } (by decide) with
    ⟨r, hr, hlen, hproc, herr, hmem⟩
  refine ⟨r, hr, ?_, ?_, ?_, ?_⟩
  · rw [hproc]; decide
  · rw [herr]; decide
  · refine hmem (Transaction.mk 2 10 "Agua" 40 .expense 7 ⟨2024, 3, 1⟩ true (some 15) none false, .errored) ?_ rfl
    decide
  · have : (processRecurringTransactions ⟨2024, 3, 15⟩ (fun i => i == 2)
        { txs :=
            [Transaction.mk 1 10 "Luz" 80 .expense 7 ⟨2024, 3, 1⟩ true (some 15) none false,
             Transaction.mk 2 10 "Agua" 40 .expense 7 ⟨2024, 3, 1⟩ true (some 15) none false,
             Transaction.mk 3 10 "Gas" 60 .expense 7 ⟨2024, 3, 1⟩ true (some 15) none false],
          budgets := [], nextId := 100 }).1 = some r := hr
    rw [show (processRecurringTransactions ⟨2024, 3, 15⟩ (fun i => i == 2)
        { txs :=
            [Transaction.mk 1 10 "Luz" 80 .expense 7 ⟨2024, 3, 1⟩ true (some 15) none false,
             Transaction.mk 2 10 "Agua" 40 .expense 7 ⟨2024, 3, 1⟩ true (some 15) none false,
             Transaction.mk 3 10 "Gas" 60 .expense 7 ⟨2024, 3, 1⟩ true (some 15) none false],
          budgets := [], nextId := 100 }).1 =
      some { processed := 2, errors := 1,
             details :=
               [{ originalId := 1, newId := some 100, isError := false },
                { originalId := 2, newId := none, isError := true },
                { originalId := 3, newId := some 101, isError := false }] }
      from by decide] at this
    cases this
    decide

theorem toutcome_count_partition (l : List TOutcome) :
    l.count .skipped + l.count .errored + l.count .created = l.length := by
  induction l with
  | nil => rfl
  | cons o l ih =>
    cases o <;> simp [List.count_cons] <;> omega

/-- C9 (amended): an invocation of `processRecurringTransactions` that
does not throw returns an aggregate — whose detail-list length equals
the sum of the processed and errored counts, both bounded by the number
of due templates — exactly when at least one template is due today; on
a day with no due templates it returns no result at all (the early
`return`, JavaScript `undefined`). -/
theorem engine_aggregate_result (today : SDate) (failOn : Nat → Bool)
    (s : Store) :
    (dueTemplates s.txs today = [] →
      (processRecurringTransactions today failOn s).1 = none) ∧
    (dueTemplates s.txs today ≠ [] →
      ∃ r, (processRecurringTransactions today failOn s).1 = some r ∧
        r.details.length = r.processed + r.errors ∧
        r.processed + r.errors ≤ (dueTemplates s.txs today).length) := by
  constructor
  · intro hempty
    unfold processRecurringTransactions
    rw [if_pos (by simpa [List.isEmpty_iff] using hempty)]
  · intro hne
    unfold processRecurringTransactions
    rw [if_neg (by simpa [List.isEmpty_iff] using hne)]
    refine ⟨_, rfl, ?_, ?_⟩
    · rcases engineFold_counts today failOn (dueTemplates s.txs today)
        { store := s, results := { processed := 0, errors := 0, details := [] } } with
        ⟨hp, he, hd⟩
      rw [hp, he, hd]
      simp
    · rcases engineFold_counts today failOn (dueTemplates s.txs today)
        { store := s, results := { processed := 0, errors := 0, details := [] } } with
        ⟨hp, he, _⟩
      rw [hp, he]
      have hpart := toutcome_count_partition (templateOutcomes today failOn
        { store := s, results := { processed := 0, errors := 0, details := [] } }
        (dueTemplates s.txs today))
      have hlen := templateOutcomes_length today failOn
        { store := s, results := { processed := 0, errors := 0, details := [] } }
        (dueTemplates s.txs today)
      simp only at hpart hlen ⊢
      omega

/-- Witness for `engine_aggregate_result`: a day where one template is
due (the aggregate is returned, detail length 1 = 1 processed + 0
errors) and, on the other side of the conjunction, a store with no
transactions at all (no aggregate). -/
theorem engine_aggregate_result_witness :
    dueTemplates ([] : List Transaction) ⟨2024, 5, 1⟩ = [] ∧
    (processRecurringTransactions ⟨2024, 5, 1⟩ (fun _ => false)
      { txs := [], budgets := [], nextId := 0 }).1 = none ∧
    dueTemplates
      [Transaction.mk 4 11 "Academia" 90 .expense 9 ⟨2024, 4, 2⟩ true (some 5) none false]
      ⟨2024, 5, 5⟩ ≠ [] ∧
    (∃ r, (processRecurringTransactions ⟨2024, 5, 5⟩ (fun _ => false)
        { txs := [Transaction.mk 4 11 "Academia" 90 .expense 9 ⟨2024, 4, 2⟩ true (some 5) none false],
          budgets := [], nextId := 30 }).1 = some r ∧
      r.details.length = r.processed + r.errors ∧
      r.processed + r.errors ≤ (dueTemplates
        [Transaction.mk 4 11 "Academia" 90 .expense 9 ⟨2024, 4, 2⟩ true (some 5) none false]
        ⟨2024, 5, 5⟩).length) :=
  ⟨rfl,
    (engine_aggregate_result ⟨2024, 5, 1⟩ (fun _ => false)
      { txs := [], budgets := [], nextId := 0 }).1 rfl,
    by decide,
    (engine_aggregate_result ⟨2024, 5, 5⟩ (fun _ => false)
      { txs := [Transaction.mk 4 11 "Academia" 90 .expense 9 ⟨2024, 4, 2⟩ true (some 5) none false],
        budgets := [], nextId := 30 }).2 (by decide)⟩

theorem string_append_cancel_iff (a b c : String) :
    a ++ c = b ++ c ↔ a = b := by
  constructor
  · intro h
    have hd : (a ++ c).data = (b ++ c).data := congrArg String.data h
    rw [String.data_append a c, String.data_append b c] at hd
    exact String.ext (List.append_cancel_right hd)
  · intro h
    rw [h]

theorem sameKey_refl (a : Transaction) : sameKey a a = true := by
  simp [sameKey]

theorem beq_symm_dec {A : Type} [DecidableEq A] (a b : A) :
    (a == b) = (b == a) := by
  by_cases h : a = b
  · subst h; rfl
  · rw [beq_false_of_ne h, beq_false_of_ne (Ne.symm h)]

theorem beq_append_cancel (a b c : String) :
    (a ++ c == b ++ c) = (a == b) := by
  by_cases h : a = b
  · subst h
    rw [beq_self_eq_true, beq_self_eq_true]
  · rw [beq_false_of_ne h,
      beq_false_of_ne (fun hc => h ((string_append_cancel_iff a b c).mp hc))]

theorem sameKey_symm (a b : Transaction) : sameKey a b = sameKey b a := by
  unfold sameKey
  rw [beq_symm_dec a.userId b.userId,
    beq_symm_dec a.description b.description,
    beq_symm_dec a.amount b.amount, beq_symm_dec a.type b.type,
    beq_symm_dec a.category b.category]

theorem matchesGuard_materialize (tpl t : Transaction) (today : SDate)
    (i : Nat) :
    matchesGuard tpl (materialize t today i) today = sameKey t tpl := by
  simp only [matchesGuard, materialize, sameKey, beq_symm_dec t.userId,
    beq_symm_dec t.description, beq_symm_dec t.amount, beq_symm_dec t.type,
    beq_symm_dec t.category, beq_append_cancel, beq_self_eq_true,
    Bool.and_true]

theorem wasProcessed_false_iff (txs : List Transaction) (tpl : Transaction)
    (today : SDate) :
    wasProcessedToday txs tpl today = false ↔
      countMatching txs tpl today = 0 := by
  simp [wasProcessedToday, countMatching, List.any_eq_false,
    List.length_eq_zero, List.filter_eq_nil_iff]

theorem countMatching_append (l1 l2 : List Transaction) (tpl : Transaction)
    (today : SDate) :
    countMatching (l1 ++ l2) tpl today =
      countMatching l1 tpl today + countMatching l2 tpl today := by
  simp [countMatching, List.filter_append]

theorem countP_sameKey_pairwise (t : Transaction) :
    ∀ ts : List Transaction,
      ts.Pairwise (fun a b => sameKey a b = false) → t ∈ ts →
      ts.countP (fun u => sameKey t u) = 1 := by
  intro ts
  induction ts with
  | nil => intro _ h; cases h
  | cons hd tl ih =>
    intro hpw hmem
    rcases List.pairwise_cons.mp hpw with ⟨hhd, htl⟩
    rcases List.mem_cons.mp hmem with heq | hmem'
    · subst heq
      rw [List.countP_cons]
      have : tl.countP (fun u => sameKey t u) = 0 := by
        rw [List.countP_eq_zero]
        intro u hu
        simpa using hhd u hu
      simp [this, sameKey_refl]
    · rw [List.countP_cons]
      have hne : sameKey t hd = false := by
        rw [sameKey_symm]
        exact hhd t hmem'
      simp [hne, ih htl hmem']

theorem countMatching_materialize_singleton (tpl t : Transaction)
    (today : SDate) (i : Nat) :
    countMatching [materialize t today i] tpl today =
      if sameKey tpl t then 1 else 0 := by
  have hrw : matchesGuard tpl (materialize t today i) today = sameKey tpl t := by
    rw [matchesGuard_materialize, sameKey_symm]
  cases hk : sameKey tpl t with
  | false => simp [countMatching, List.filter, hrw, hk]
  | true => simp [countMatching, List.filter, hrw, hk]

theorem engineRun_fresh (today : SDate) :
    ∀ (ts : List Transaction) (acc : EngineAcc),
      ts.Pairwise (fun a b => sameKey a b = false) →
      (∀ t ∈ ts, countMatching acc.store.txs t today = 0) →
      ∃ mats : List Transaction,
        (ts.foldl (processTemplate today (fun _ => false)) acc).store.txs =
          acc.store.txs ++ mats ∧
        List.Forall₂ (fun t c => ∃ i, c = materialize t today i) ts mats ∧
        ∀ tpl, countMatching
            (ts.foldl (processTemplate today (fun _ => false)) acc).store.txs
            tpl today =
          countMatching acc.store.txs tpl today +
            ts.countP (fun u => sameKey tpl u) := by
  intro ts
  induction ts with
  | nil =>
    intro acc _ _
    exact ⟨[], by simp, List.Forall₂.nil, fun tpl => by simp⟩
  | cons t ts ih =>
    intro acc hpw hclean
    rcases List.pairwise_cons.mp hpw with ⟨hhd, htl⟩
    have hguard : wasProcessedToday acc.store.txs t today = false :=
      (wasProcessed_false_iff _ _ _).mpr (hclean t (List.mem_cons_self t ts))
    have hstep := processTemplate_created today (fun _ => false) acc t hguard rfl
    have hacc'txs : (processTemplate today (fun _ => false) acc t).store.txs =
        acc.store.txs ++ [materialize t today acc.store.nextId] := by
      rw [hstep]
    have hcount' : ∀ u ∈ ts,
        countMatching (processTemplate today (fun _ => false) acc t).store.txs
          u today = 0 := by
      intro u hu
      rw [hacc'txs, countMatching_append,
        countMatching_materialize_singleton u t today acc.store.nextId,
        hclean u (List.mem_cons_of_mem _ hu)]
      have hk : sameKey u t = false := by
        rw [sameKey_symm]
        exact hhd u hu
      simp [hk]
    rcases ih (processTemplate today (fun _ => false) acc t) htl hcount' with
      ⟨mats', htxs', hfa', hcnt'⟩
    refine ⟨materialize t today acc.store.nextId :: mats', ?_, ?_, ?_⟩
    · rw [List.foldl_cons, htxs', hacc'txs, List.append_assoc]
      rfl
    · exact List.Forall₂.cons ⟨acc.store.nextId, rfl⟩ hfa'
    · intro tpl
      rw [List.foldl_cons, hcnt' tpl, hacc'txs, countMatching_append,
        countMatching_materialize_singleton tpl t today acc.store.nextId,
        List.countP_cons]
      cases hk : sameKey tpl t with
      | false => simp [hk]
      | true => simp [hk]; omega

theorem engineRun_allProcessed (today : SDate) (failOn : Nat → Bool) :
    ∀ (ts : List Transaction) (acc : EngineAcc),
      (∀ t ∈ ts, wasProcessedToday acc.store.txs t today = true) →
      ts.foldl (processTemplate today failOn) acc = acc := by
  intro ts
  induction ts with
  | nil => intro acc _; rfl
  | cons t ts ih =>
    intro acc hall
    rw [List.foldl_cons,
      processTemplate_skipped today failOn acc t (hall t (List.mem_cons_self t ts))]
    exact ih acc (fun u hu => hall u (List.mem_cons_of_mem _ hu))

theorem forall2_materialize_nonrecurring (today : SDate) :
    ∀ (ts mats : List Transaction),
      List.Forall₂ (fun t c => ∃ i, c = materialize t today i) ts mats →
      ∀ c ∈ mats, c.isRecurring = false := by
  intro ts mats h
  induction h with
  | nil => intro c hc; cases hc
  | cons hrel _ ih =>
    intro c hc
    rcases List.mem_cons.mp hc with heq | hc'
    · subst heq
      rcases hrel with ⟨i, rfl⟩
      rfl
    · exact ih c hc'

theorem dueTemplates_append_nonrecurring (txs mats : List Transaction)
    (today : SDate) (h : ∀ c ∈ mats, c.isRecurring = false) :
    dueTemplates (txs ++ mats) today = dueTemplates txs today := by
  unfold dueTemplates
  rw [List.filter_append]
  have : mats.filter (fun t => t.isRecurring && t.recurringDay == some today.day) = [] := by
    rw [List.filter_eq_nil_iff]
    intro c hc
    simp [h c hc]
  rw [this, List.append_nil]

/-- C1 (amended): provided the templates due today are pairwise
distinguishable by the duplicate-guard key (owner, description, amount,
type, category) and none has a materialized copy yet, running the
engine twice on the same day (without persistence failures) leaves
exactly one materialized copy per due template: after the first run
each due template has exactly one guard-matching copy, and the second
run changes nothing — it returns an aggregate with zero processed and
zero errored templates. -/
theorem engine_twice_once_per_template (today : SDate) (s : Store)
    (hpw : (dueTemplates s.txs today).Pairwise (fun a b => sameKey a b = false))
    (hclean : ∀ t ∈ dueTemplates s.txs today,
      countMatching s.txs t today = 0) :
    (∀ t ∈ dueTemplates s.txs today,
      countMatching
        (processRecurringTransactions today (fun _ => false) s).2.txs t today = 1) ∧
    (processRecurringTransactions today (fun _ => false)
        (processRecurringTransactions today (fun _ => false) s).2).2 =
      (processRecurringTransactions today (fun _ => false) s).2 ∧
    (dueTemplates s.txs today ≠ [] →
      (processRecurringTransactions today (fun _ => false)
          (processRecurringTransactions today (fun _ => false) s).2).1 =
        some { processed := 0, errors := 0, details := [] }) := by
  by_cases hemp : dueTemplates s.txs today = []
  · have h1 : processRecurringTransactions today (fun _ => false) s = (none, s) := by
      unfold processRecurringTransactions
      rw [if_pos (by simp [hemp])]
    rw [h1]
    exact ⟨fun t ht => absurd ht (by simp [hemp]), by rw [h1], fun hne => absurd hemp hne⟩
  · have hne' : (dueTemplates s.txs today).isEmpty = false := by
      simpa [List.isEmpty_iff] using hemp
    have hrun1 : processRecurringTransactions today (fun _ => false) s =
        (some ((dueTemplates s.txs today).foldl
            (processTemplate today (fun _ => false))
            { store := s, results := { processed := 0, errors := 0, details := [] } }).results,
         ((dueTemplates s.txs today).foldl
            (processTemplate today (fun _ => false))
            { store := s, results := { processed := 0, errors := 0, details := [] } }).store) := by
      unfold processRecurringTransactions
      rw [if_neg (by simp [hne'])]
    rcases engineRun_fresh today (dueTemplates s.txs today)
        { store := s, results := { processed := 0, errors := 0, details := [] } }
        hpw hclean with ⟨mats, htxs, hfa, hcnt⟩
    have hcount1 : ∀ t ∈ dueTemplates s.txs today,
        countMatching
          ((dueTemplates s.txs today).foldl
            (processTemplate today (fun _ => false))
            { store := s, results := { processed := 0, errors := 0, details := [] } }).store.txs
          t today = 1 := by
      intro t ht
      rw [hcnt t, hclean t ht, countP_sameKey_pairwise t (dueTemplates s.txs today) hpw ht]
    have hdue1 : dueTemplates
        ((dueTemplates s.txs today).foldl
          (processTemplate today (fun _ => false))
          { store := s, results := { processed := 0, errors := 0, details := [] } }).store.txs
        today = dueTemplates s.txs today := by
      rw [htxs]
      exact dueTemplates_append_nonrecurring s.txs mats today
        (forall2_materialize_nonrecurring today (dueTemplates s.txs today) mats hfa)
    have hguard2 : ∀ t ∈ dueTemplates s.txs today,
        wasProcessedToday
          ((dueTemplates s.txs today).foldl
            (processTemplate today (fun _ => false))
            { store := s, results := { processed := 0, errors := 0, details := [] } }).store.txs
          t today = true := by
      intro t ht
      cases hw : wasProcessedToday
          ((dueTemplates s.txs today).foldl
            (processTemplate today (fun _ => false))
            { store := s, results := { processed := 0, errors := 0, details := [] } }).store.txs
          t today with
      | true => rfl
      | false =>
        exfalso
        have := (wasProcessed_false_iff _ _ _).mp hw
        rw [hcount1 t ht] at this
        exact one_ne_zero this
    have hrun2 : processRecurringTransactions today (fun _ => false)
        ((dueTemplates s.txs today).foldl
          (processTemplate today (fun _ => false))
          { store := s, results := { processed := 0, errors := 0, details := [] } }).store =
        (some { processed := 0, errors := 0, details := [] },
         ((dueTemplates s.txs today).foldl
          (processTemplate today (fun _ => false))
          { store := s, results := { processed := 0, errors := 0, details := [] } }).store) := by
      unfold processRecurringTransactions
      rw [hdue1]
      rw [if_neg (by simp [hne'])]
      have hfold2 := engineRun_allProcessed today (fun _ => false)
        (dueTemplates s.txs today)
        { store := ((dueTemplates s.txs today).foldl
            (processTemplate today (fun _ => false))
            { store := s, results := { processed := 0, errors := 0, details := [] } }).store,
          results := { processed := 0, errors := 0, details := [] } } hguard2
      simp only [hfold2]
    rw [hrun1]
    exact ⟨hcount1, by rw [hrun2], fun _ => by rw [hrun2]⟩

/-- Witness for `engine_twice_once_per_template`: two due templates
with distinct guard keys and no pre-existing copies; after the first
run each has exactly one materialized copy and the second run leaves
the store unchanged. -/
theorem engine_twice_once_per_template_witness :
    (dueTemplates
      [Transaction.mk 1 10 "Luz mensal" 80 .expense 7 ⟨2024, 3, 1⟩ true (some 20) none false,
       Transaction.mk 2 10 "Salario" 3000 .income 8 ⟨2024, 3, 1⟩ true (some 20) none false]
      ⟨2024, 3, 20⟩).Pairwise (fun a b => sameKey a b = false) ∧
    (∀ t ∈ dueTemplates
        [Transaction.mk 1 10 "Luz mensal" 80 .expense 7 ⟨2024, 3, 1⟩ true (some 20) none false,
         Transaction.mk 2 10 "Salario" 3000 .income 8 ⟨2024, 3, 1⟩ true (some 20) none false]
        ⟨2024, 3, 20⟩,
      countMatching
        [Transaction.mk 1 10 "Luz mensal" 80 .expense 7 ⟨2024, 3, 1⟩ true (some 20) none false,
         Transaction.mk 2 10 "Salario" 3000 .income 8 ⟨2024, 3, 1⟩ true (some 20) none false]
        t ⟨2024, 3, 20⟩ = 0) ∧
    (∀ t ∈ dueTemplates
        [Transaction.mk 1 10 "Luz mensal" 80 .expense 7 ⟨2024, 3, 1⟩ true (some 20) none false,
         Transaction.mk 2 10 "Salario" 3000 .income 8 ⟨2024, 3, 1⟩ true (some 20) none false]
        ⟨2024, 3, 20⟩,
      countMatching
        (processRecurringTransactions ⟨2024, 3, 20⟩ (fun _ => false)
          { txs :=
              [Transaction.mk 1 10 "Luz mensal" 80 .expense 7 ⟨2024, 3, 1⟩ true (some 20) none false,
               Transaction.mk 2 10 "Salario" 3000 .income 8 ⟨2024, 3, 1⟩ true (some 20) none false],
            budgets := [], nextId := 200 }).2.txs t ⟨2024, 3, 20⟩ = 1) ∧
    (processRecurringTransactions ⟨2024, 3, 20⟩ (fun _ => false)
        (processRecurringTransactions ⟨2024, 3, 20⟩ (fun _ => false)
          { txs :=
              [Transaction.mk 1 10 "Luz mensal" 80 .expense 7 ⟨2024, 3, 1⟩ true (some 20) none false,
               Transaction.mk 2 10 "Salario" 3000 .income 8 ⟨2024, 3, 1⟩ true (some 20) none false],
            budgets := [], nextId := 200 }).2).2 =
      (processRecurringTransactions ⟨2024, 3, 20⟩ (fun _ => false)
        { txs :=
            [Transaction.mk 1 10 "Luz mensal" 80 .expense 7 ⟨2024, 3, 1⟩ true (some 20) none false,
             Transaction.mk 2 10 "Salario" 3000 .income 8 ⟨2024, 3, 1⟩ true (some 20) none false],
          budgets := [], nextId := 200 }).2 := by
  refine ⟨by decide, by decide, ?_, ?_⟩
  · exact (engine_twice_once_per_template ⟨2024, 3, 20⟩
      { txs :=
          [Transaction.mk 1 10 "Luz mensal" 80 .expense 7 ⟨2024, 3, 1⟩ true (some 20) none false,
           Transaction.mk 2 10 "Salario" 3000 .income 8 ⟨2024, 3, 1⟩ true (some 20) none false],
        budgets := [], nextId := 200 } (by decide) (by decide)).1
  · exact (engine_twice_once_per_template ⟨2024, 3, 20⟩
      { txs :=
          [Transaction.mk 1 10 "Luz mensal" 80 .expense 7 ⟨2024, 3, 1⟩ true (some 20) none false,
           Transaction.mk 2 10 "Salario" 3000 .income 8 ⟨2024, 3, 1⟩ true (some 20) none false],
        budgets := [], nextId := 200 } (by decide) (by decide)).2.1

/-- C1 (counterexample): two templates that the duplicate guard cannot
tell apart (same owner, description, amount, type and category;
distinct ids) are both due on the 15th and neither has a copy yet, but
running the engine twice creates only one materialized transaction in
total — the first run processes only one of the two due templates
(the second template's guard finds the first template's copy), so "one
materialized transaction per due template" fails. -/
theorem engine_twice_identical_templates_cx :
    (dueTemplates
      [Transaction.mk 1 10 "Spotify" 30 .expense 7 ⟨2024, 3, 1⟩ true (some 15) none false,
       Transaction.mk 2 10 "Spotify" 30 .expense 7 ⟨2024, 3, 1⟩ true (some 15) none false]
      ⟨2024, 3, 15⟩).length = 2 ∧
    (processRecurringTransactions ⟨2024, 3, 15⟩ (fun _ => false)
      { txs :=
          [Transaction.mk 1 10 "Spotify" 30 .expense 7 ⟨2024, 3, 1⟩ true (some 15) none false,
           Transaction.mk 2 10 "Spotify" 30 .expense 7 ⟨2024, 3, 1⟩ true (some 15) none false],
        budgets := [], nextId := 100 }).1 =
      some { processed := 1, errors := 0,
             details := [{ originalId := 1, newId := some 100, isError := false }] } ∧
    (processRecurringTransactions ⟨2024, 3, 15⟩ (fun _ => false)
      (processRecurringTransactions ⟨2024, 3, 15⟩ (fun _ => false)
        { txs :=
            [Transaction.mk 1 10 "Spotify" 30 .expense 7 ⟨2024, 3, 1⟩ true (some 15) none false,
             Transaction.mk 2 10 "Spotify" 30 .expense 7 ⟨2024, 3, 1⟩ true (some 15) none false],
          budgets := [], nextId := 100 }).2).2.txs.length = 3 := by
  refine ⟨by decide, by decide, by decide⟩

theorem findBudget_replace (l : List Budget) (id uid : Nat) (b b2 : Budget)
    (hfind : findBudget l id uid = some b) (hid : b2.id = b.id)
    (huid : b2.userId = b.userId) :
    findBudget (l.map (fun x => if x.id == b.id then b2 else x)) id uid =
      some b2 := by
  induction l with
  | nil => simp [findBudget] at hfind
  | cons x xs ih =>
    cases hp : (x.id == id && x.userId == uid) with
    | true =>
      have hx : x = b := by
        rw [findBudget] at hfind
        simp [List.find?, hp] at hfind
        exact hfind
      subst hx
      have hpb2 : (b2.id == id && b2.userId == uid) = true := by
        rw [hid, huid]
        exact hp
      simp [findBudget, List.find?, hpb2]
    | false =>
      have hfind' : findBudget xs id uid = some b := by
        rw [findBudget] at hfind
        simp [List.find?, hp] at hfind
        exact hfind
      by_cases hxid : (x.id == b.id) = true
      · have hpb : (b.id == id && b.userId == uid) = true := by
          have h := hfind'
          unfold findBudget at h
          have h2 := List.find?_some h
          exact h2
        have hpb2 : (b2.id == id && b2.userId == uid) = true := by
          rw [hid, huid]
          exact hpb
        simp [findBudget, List.find?, hxid, hpb2]
      · have hih := ih hfind'
        unfold findBudget at hih ⊢
        simp only [List.map_cons, if_neg hxid]
        rw [List.find?_cons, hp]
        exact hih

theorem replace_map_idem (l : List Budget) (bid : Nat) (b2 : Budget) :
    (l.map (fun x => if x.id == bid then b2 else x)).map
        (fun x => if x.id == bid then b2 else x) =
      l.map (fun x => if x.id == bid then b2 else x) := by
  rw [List.map_map]
  apply List.map_congr_left
  intro x _
  by_cases hx : (x.id == bid) = true
  · simp [Function.comp, hx]
  · simp [Function.comp, hx]

/-- C5 (counterexample): the recalculate aggregation also filters on
`userId: req.user._id`, which the claim omits.  A transaction created
by user 2 referencing user 1's budget (the create route checks only
that `budgetId` is a well-formed id, not its ownership) is counted by
the claim's sum (50) but not by the code's: the owner's recalculate
sets `spent` to 0, not 50.  The store is built through the actual
create handler, so the state is reachable. -/
theorem recalc_foreign_reference_cx :
    findBudget
      ((recalculateBudget
        (createTransaction
          { txs := [], budgets := [Budget.mk 1 1 5 3 2024 500 0 true], nextId := 10 }
          (TxData.mk 2 "Cinema" 50 .expense 5 ⟨2024, 3, 12⟩ false none (some 1)))
        1 1).1).budgets 1 1 =
      some (Budget.mk 1 1 5 3 2024 500 0 true) ∧
    claimRecalcSum
      (createTransaction
        { txs := [], budgets := [Budget.mk 1 1 5 3 2024 500 0 true], nextId := 10 }
        (TxData.mk 2 "Cinema" 50 .expense 5 ⟨2024, 3, 12⟩ false none (some 1))).txs
      1 2024 3 = 50 ∧
    (0 : Int) ≠ 50 := by
  refine ⟨by decide, by decide, by decide⟩

/-- C5 (amended): the recalculate operation sets the budget's `spent`
to exactly the sum of the budget owner's expense transactions
referencing it and dated inside [first day of budget.month/year, end of
that month 23:59:59], and it is idempotent: a second call leaves the
whole store — and the reported payload — unchanged. -/
theorem recalc_state_eq (s : Store) (id uid : Nat) (b : Budget)
    (hb : findBudget s.budgets id uid = some b) :
    recalculateBudget s id uid =
      ({ s with budgets := s.budgets.map (fun x =>
          if x.id == b.id
          then { b with spent := recalcSum s.txs b.id uid b.year b.month }
          else x) },
       some { spent := recalcSum s.txs b.id uid b.year b.month,
              oldSpent := recalcSum s.txs b.id uid b.year b.month,
              newSpent := recalcSum s.txs b.id uid b.year b.month }) := by
  unfold recalculateBudget
  rw [hb]

theorem recalc_owner_sum_idempotent (s : Store) (id uid : Nat) (b : Budget)
    (hb : findBudget s.budgets id uid = some b) :
    findBudget (recalculateBudget s id uid).1.budgets id uid =
      some { b with spent := recalcSum s.txs b.id uid b.year b.month } ∧
    (recalculateBudget (recalculateBudget s id uid).1 id uid).1 =
      (recalculateBudget s id uid).1 ∧
    (recalculateBudget (recalculateBudget s id uid).1 id uid).2 =
      (recalculateBudget s id uid).2 := by
  have hstate := recalc_state_eq s id uid b hb
  have h1 : findBudget (recalculateBudget s id uid).1.budgets id uid =
      some { b with spent := recalcSum s.txs b.id uid b.year b.month } := by
    rw [hstate]
    exact findBudget_replace s.budgets id uid b
      { b with spent := recalcSum s.txs b.id uid b.year b.month } hb rfl rfl
  have hstate2 := recalc_state_eq (recalculateBudget s id uid).1 id uid
    { b with spent := recalcSum s.txs b.id uid b.year b.month } h1
  refine ⟨h1, ?_, ?_⟩
  · rw [hstate2, hstate]
    dsimp only
    rw [replace_map_idem]
  · rw [hstate2, hstate]

/-- Witness for `recalc_owner_sum_idempotent`: a drifted budget
(`spent = 999`) with two owner transactions, one inside and one outside
the window; recalculate lands on the in-window amount 70 and a second
call changes nothing. -/
theorem recalc_owner_sum_idempotent_witness :
    findBudget [Budget.mk 3 1 5 4 2024 400 999 true] 3 1 =
      some (Budget.mk 3 1 5 4 2024 400 999 true) ∧
    findBudget
      ((recalculateBudget
        { txs :=
            [Transaction.mk 20 1 "Feira" 70 .expense 5 ⟨2024, 4, 8⟩ false none (some 3) false,
             Transaction.mk 21 1 "Feira" 30 .expense 5 ⟨2024, 5, 2⟩ false none (some 3) false],
          budgets := [Budget.mk 3 1 5 4 2024 400 999 true], nextId := 50 }
        3 1).1).budgets 3 1 =
      some { Budget.mk 3 1 5 4 2024 400 999 true with
             spent := recalcSum
               [Transaction.mk 20 1 "Feira" 70 .expense 5 ⟨2024, 4, 8⟩ false none (some 3) false,
                Transaction.mk 21 1 "Feira" 30 .expense 5 ⟨2024, 5, 2⟩ false none (some 3) false]
               3 1 2024 4 } ∧
    recalcSum
      [Transaction.mk 20 1 "Feira" 70 .expense 5 ⟨2024, 4, 8⟩ false none (some 3) false,
       Transaction.mk 21 1 "Feira" 30 .expense 5 ⟨2024, 5, 2⟩ false none (some 3) false]
      3 1 2024 4 = 70 ∧
    (recalculateBudget
      (recalculateBudget
        { txs :=
            [Transaction.mk 20 1 "Feira" 70 .expense 5 ⟨2024, 4, 8⟩ false none (some 3) false,
             Transaction.mk 21 1 "Feira" 30 .expense 5 ⟨2024, 5, 2⟩ false none (some 3) false],
          budgets := [Budget.mk 3 1 5 4 2024 400 999 true], nextId := 50 }
        3 1).1 3 1).1 =
      (recalculateBudget
        { txs :=
            [Transaction.mk 20 1 "Feira" 70 .expense 5 ⟨2024, 4, 8⟩ false none (some 3) false,
             Transaction.mk 21 1 "Feira" 30 .expense 5 ⟨2024, 5, 2⟩ false none (some 3) false],
          budgets := [Budget.mk 3 1 5 4 2024 400 999 true], nextId := 50 }
        3 1).1 := by
  refine ⟨by decide, ?_, by decide, ?_⟩
  · exact (recalc_owner_sum_idempotent
      { txs :=
          [Transaction.mk 20 1 "Feira" 70 .expense 5 ⟨2024, 4, 8⟩ false none (some 3) false,
           Transaction.mk 21 1 "Feira" 30 .expense 5 ⟨2024, 5, 2⟩ false none (some 3) false],
        budgets := [Budget.mk 3 1 5 4 2024 400 999 true], nextId := 50 }
      3 1 (Budget.mk 3 1 5 4 2024 400 999 true) (by decide)).1
  · exact (recalc_owner_sum_idempotent
      { txs :=
          [Transaction.mk 20 1 "Feira" 70 .expense 5 ⟨2024, 4, 8⟩ false none (some 3) false,
           Transaction.mk 21 1 "Feira" 30 .expense 5 ⟨2024, 5, 2⟩ false none (some 3) false],
        budgets := [Budget.mk 3 1 5 4 2024 400 999 true], nextId := 50 }
      3 1 (Budget.mk 3 1 5 4 2024 400 999 true) (by decide)).2.1

theorem recalcSum_cons (x : Transaction) (txs : List Transaction)
    (bid uid y m : Nat) :
    recalcSum (x :: txs) bid uid y m =
      (if recalcMatch bid uid y m x then x.amount else 0) +
        recalcSum txs bid uid y m := by
  cases h : recalcMatch bid uid y m x with
  | false => simp [recalcSum, List.filter, h]
  | true => simp [recalcSum, List.filter, h]

theorem recalcSum_append_single (txs : List Transaction) (t : Transaction)
    (bid uid y m : Nat) :
    recalcSum (txs ++ [t]) bid uid y m =
      recalcSum txs bid uid y m +
        (if recalcMatch bid uid y m t then t.amount else 0) := by
  unfold recalcSum
  rw [List.filter_append, List.map_append, List.sum_append]
  cases h : recalcMatch bid uid y m t with
  | false => simp [List.filter, h]
  | true => simp [List.filter, h]

theorem recalcSum_remove (txs : List Transaction) (t : Transaction)
    (hmem : t ∈ txs) (hnd : (txs.map (fun u => u.id)).Nodup)
    (bid uid y m : Nat) :
    recalcSum (txs.filter (fun u => u.id != t.id)) bid uid y m =
      recalcSum txs bid uid y m -
        (if recalcMatch bid uid y m t then t.amount else 0) := by
  induction txs with
  | nil => cases hmem
  | cons x xs ih =>
    rw [List.map_cons, List.nodup_cons] at hnd
    rcases List.mem_cons.mp hmem with heq | hmem'
    · subst heq
      have hfilter : xs.filter (fun u => u.id != t.id) = xs := by
        apply List.filter_eq_self.mpr
        intro u hu
        simp only [bne_iff_ne, ne_eq]
        intro hc
        exact hnd.1 (hc ▸ List.mem_map_of_mem (fun u => u.id) hu)
      rw [List.filter_cons, if_neg (by simp), hfilter, recalcSum_cons]
      ring
    · have hxid : x.id ≠ t.id := by
        intro hc
        exact hnd.1 (hc ▸ List.mem_map_of_mem (fun u => u.id) hmem')
      rw [List.filter_cons, if_pos (by simpa using hxid), recalcSum_cons,
        recalcSum_cons, ih hmem' hnd.2]
      ring

theorem recalcSum_replace (txs : List Transaction) (t newT : Transaction)
    (hmem : t ∈ txs) (hnd : (txs.map (fun u => u.id)).Nodup)
    (bid uid y m : Nat) :
    recalcSum (txs.map (fun u => if u.id == t.id then newT else u))
        bid uid y m =
      recalcSum txs bid uid y m -
        (if recalcMatch bid uid y m t then t.amount else 0) +
        (if recalcMatch bid uid y m newT then newT.amount else 0) := by
  induction txs with
  | nil => cases hmem
  | cons x xs ih =>
    rw [List.map_cons, List.nodup_cons] at hnd
    rcases List.mem_cons.mp hmem with heq | hmem'
    · subst heq
      have hrest : xs.map (fun u => if u.id == t.id then newT else u) = xs := by
        have hpt : ∀ u ∈ xs, (if u.id == t.id then newT else u) = u := by
          intro u hu
          have hne : u.id ≠ t.id := fun hc =>
            hnd.1 (hc ▸ List.mem_map_of_mem (fun u => u.id) hu)
          rw [if_neg (by simpa using hne)]
        exact (List.map_congr_left hpt).trans (List.map_id xs)
      rw [List.map_cons, if_pos (by simp), hrest, recalcSum_cons,
        recalcSum_cons]
      ring
    · have hxid : x.id ≠ t.id := by
        intro hc
        exact hnd.1 (hc ▸ List.mem_map_of_mem (fun u => u.id) hmem')
      rw [List.map_cons, if_neg (by simpa using hxid), recalcSum_cons,
        recalcSum_cons, ih hmem' hnd.2]
      ring

theorem refOK_incSpent (budgets : List Budget) (bid : Nat) (d : Int)
    (t : Transaction) :
    refOK (incSpent budgets bid d) t ↔ refOK budgets t := by
  unfold refOK incSpent
  constructor
  · intro h b hb hrefs htype
    have hmem : (if b.id == bid then { b with spent := b.spent + d } else b) ∈
        budgets.map (fun b => if b.id == bid then { b with spent := b.spent + d } else b) :=
      List.mem_map_of_mem _ hb
    have hb' := h _ hmem
    by_cases hc : (b.id == bid) = true
    · rw [if_pos hc] at hb'
      exact hb' hrefs htype
    · rw [if_neg hc] at hb'
      exact hb' hrefs htype
  · intro h b' hb'
    rcases List.mem_map.mp hb' with ⟨b, hb, rfl⟩
    by_cases hc : (b.id == bid) = true
    · rw [if_pos hc]
      intro hrefs htype
      exact h b hb hrefs htype
    · rw [if_neg hc]
      exact h b hb

theorem incSpent_ids (budgets : List Budget) (bid : Nat) (d : Int) :
    (incSpent budgets bid d).map (fun b => b.id) =
      budgets.map (fun b => b.id) := by
  unfold incSpent
  rw [List.map_map]
  apply List.map_congr_left
  intro b _
  by_cases hc : (b.id == bid) = true
  · simp [Function.comp, hc]
  · simp [Function.comp, hc]

theorem condInc_mem (budgets : List Budget) (t : Transaction) (d : Int)
    (b' : Budget)
    (hb' : b' ∈ (match t.budgetId with
      | some bid => if t.type == TxType.expense then incSpent budgets bid d
          else budgets
      | none => budgets)) :
    ∃ b ∈ budgets, b'.id = b.id ∧ b'.userId = b.userId ∧ b'.year = b.year ∧
      b'.month = b.month ∧
      b'.spent = b.spent +
        (if t.budgetId == some b.id && t.type == TxType.expense then d
         else 0) := by
  cases hbid : t.budgetId with
  | none =>
    rw [hbid] at hb'
    dsimp only at hb'
    exact ⟨b', hb', rfl, rfl, rfl, rfl, by simp [hbid]⟩
  | some bid =>
    rw [hbid] at hb'
    dsimp only at hb'
    cases hty : (t.type == TxType.expense) with
    | false =>
      rw [if_neg (by simp [hty])] at hb'
      exact ⟨b', hb', rfl, rfl, rfl, rfl, by simp [hty]⟩
    | true =>
      rw [if_pos (by simp [hty])] at hb'
      rcases List.mem_map.mp hb' with ⟨b, hb, rfl⟩
      by_cases hc : (b.id == bid) = true
      · refine ⟨b, hb, by simp [hc], by simp [hc], by simp [hc],
          by simp [hc], ?_⟩
        have hbeq : bid = b.id := (beq_iff_eq.mp hc).symm
        rw [if_pos hc]
        rw [if_pos (by simp [hbid, hty, hbeq])]
      · refine ⟨b, hb, by rw [if_neg hc], by rw [if_neg hc],
          by rw [if_neg hc], by rw [if_neg hc], ?_⟩
        rw [if_neg hc]
        have hne : ¬bid = b.id := fun hc2 => hc (by simp [hc2])
        rw [if_neg (by simp [hbid, hne]), add_zero]

theorem condInc_refOK (budgets : List Budget) (t u : Transaction) (d : Int) :
    refOK (match t.budgetId with
      | some bid => if t.type == TxType.expense then incSpent budgets bid d
          else budgets
      | none => budgets) u ↔ refOK budgets u := by
  cases hbid : t.budgetId with
  | none => exact Iff.rfl
  | some bid =>
    dsimp only
    cases hty : (t.type == TxType.expense) with
    | false =>
      rw [if_neg (by simp [hty])]
    | true =>
      rw [if_pos (by simp [hty])]
      exact refOK_incSpent budgets bid d u

theorem condInc_ids (budgets : List Budget) (t : Transaction) (d : Int) :
    ((match t.budgetId with
      | some bid => if t.type == TxType.expense then incSpent budgets bid d
          else budgets
      | none => budgets) : List Budget).map (fun b => b.id) =
      budgets.map (fun b => b.id) := by
  cases hbid : t.budgetId with
  | none => rfl
  | some bid =>
    dsimp only
    cases hty : (t.type == TxType.expense) with
    | false =>
      rw [if_neg (by simp [hty])]
    | true =>
      rw [if_pos (by simp [hty])]
      exact incSpent_ids budgets bid d

theorem recalcMatch_of_refOK (budgets : List Budget) (t : Transaction)
    (b : Budget) (hb : b ∈ budgets) (href : refOK budgets t) :
    recalcMatch b.id b.userId b.year b.month t =
      (t.budgetId == some b.id && t.type == .expense) := by
  cases hc : (t.budgetId == some b.id && t.type == TxType.expense) with
  | false =>
    rcases Bool.and_eq_false_iff.mp hc with h | h
    · simp [recalcMatch, h]
    · simp [recalcMatch, h]
  | true =>
    have h12 := hc
    simp only [Bool.and_eq_true, beq_iff_eq] at h12
    rcases href b hb h12.1 h12.2 with ⟨huid, hwin⟩
    simp [recalcMatch, h12.1, h12.2, huid, hwin]

theorem createTransaction_eq (s : Store) (d : TxData)
    (hval : (d.isRecurring && d.recurringDay.isNone) = false) :
    createTransaction s d =
      { txs := s.txs ++ [d.toTx s.nextId],
        budgets :=
          (match (d.toTx s.nextId).budgetId with
            | some bid => if (d.toTx s.nextId).type == TxType.expense
                then incSpent s.budgets bid (d.toTx s.nextId).amount
                else s.budgets
            | none => s.budgets),
        nextId := s.nextId + 1 } := by
  unfold createTransaction
  rw [if_neg (by simp [hval])]

theorem createTransaction_preserves (s : Store) (d : TxData)
    (hWF : StoreWF s) (hOK : refOK s.budgets (d.toTx s.nextId))
    (hcons : spentConsistent s) :
    StoreWF (createTransaction s d) ∧ spentConsistent (createTransaction s d) := by
  unfold StoreWF at hWF
  rcases hWF with ⟨href, hndtx, hndb, hfresh⟩
  cases hval : (d.isRecurring && d.recurringDay.isNone) with
  | true =>
    unfold createTransaction
    rw [if_pos hval]
    exact ⟨⟨href, hndtx, hndb, hfresh⟩, hcons⟩
  | false =>
    rw [createTransaction_eq s d hval]
    constructor
    · refine ⟨?_, ?_, ?_, ?_⟩
      · intro u hu
        apply (condInc_refOK s.budgets (d.toTx s.nextId) u
          (d.toTx s.nextId).amount).mpr
        rcases List.mem_append.mp hu with hu' | hu'
        · exact href u hu'
        · rw [List.mem_singleton.mp hu']
          exact hOK
      · rw [List.map_append, List.nodup_append]
        refine ⟨hndtx, List.nodup_singleton _, ?_⟩
        intro x hx hx'
        rcases List.mem_map.mp hx with ⟨u, hu, rfl⟩
        have hlt := hfresh u hu
        have hxid : u.id = (d.toTx s.nextId).id := by simpa using hx'
        have hnid : (d.toTx s.nextId).id = s.nextId := rfl
        omega
      · rw [condInc_ids s.budgets (d.toTx s.nextId) (d.toTx s.nextId).amount]
        exact hndb
      · intro u hu
        rcases List.mem_append.mp hu with hu' | hu'
        · exact Nat.lt_succ_of_lt (hfresh u hu')
        · rw [List.mem_singleton.mp hu']
          show (d.toTx s.nextId).id < s.nextId + 1
          have hnid : (d.toTx s.nextId).id = s.nextId := rfl
          omega
    · intro b' hb'
      rcases condInc_mem s.budgets (d.toTx s.nextId) (d.toTx s.nextId).amount
        b' hb' with ⟨b, hb, hid, huid, hyear, hmonth, hspent⟩
      show b'.spent = recalcSum _ b'.id b'.userId b'.year b'.month
      rw [hid, huid, hyear, hmonth, recalcSum_append_single,
        recalcMatch_of_refOK s.budgets (d.toTx s.nextId) b hb hOK,
        hspent, hcons b hb]

theorem findTx_facts (txs : List Transaction) (id uid : Nat)
    (t : Transaction) (h : findTx txs id uid = some t) :
    t ∈ txs ∧ t.id = id ∧ t.userId = uid := by
  unfold findTx at h
  have hmem := List.mem_of_find?_eq_some h
  have hp := List.find?_some h
  simp only [Bool.and_eq_true, beq_iff_eq] at hp
  exact ⟨hmem, hp.1, hp.2⟩

theorem deleteTransaction_eq (s : Store) (id uid : Nat) (t : Transaction)
    (hfind : findTx s.txs id uid = some t) :
    deleteTransaction s id uid =
      { txs := s.txs.filter (fun u => u.id != id),
        budgets :=
          (match t.budgetId with
            | some bid => if t.type == TxType.expense
                then incSpent s.budgets bid (-t.amount)
                else s.budgets
            | none => s.budgets),
        nextId := s.nextId } := by
  unfold deleteTransaction
  rw [hfind]

theorem deleteTransaction_preserves (s : Store) (id uid : Nat)
    (hWF : StoreWF s) (hcons : spentConsistent s) :
    StoreWF (deleteTransaction s id uid) ∧
      spentConsistent (deleteTransaction s id uid) := by
  cases hfind : findTx s.txs id uid with
  | none =>
    unfold deleteTransaction
    rw [hfind]
    exact ⟨hWF, hcons⟩
  | some t =>
    rcases findTx_facts s.txs id uid t hfind with ⟨hmem, hid, _⟩
    unfold StoreWF at hWF
    rcases hWF with ⟨href, hndtx, hndb, hfresh⟩
    rw [deleteTransaction_eq s id uid t hfind]
    constructor
    · refine ⟨?_, ?_, ?_, ?_⟩
      · intro u hu
        apply (condInc_refOK s.budgets t u (-t.amount)).mpr
        exact href u (List.mem_of_mem_filter hu)
      · exact List.Nodup.sublist
          (List.Sublist.map _ (List.filter_sublist _)) hndtx
      · rw [condInc_ids s.budgets t (-t.amount)]
        exact hndb
      · intro u hu
        exact hfresh u (List.mem_of_mem_filter hu)
    · intro b' hb'
      rcases condInc_mem s.budgets t (-t.amount) b' hb' with
        ⟨b, hb, hid', huid', hyear', hmonth', hspent⟩
      show b'.spent = recalcSum _ b'.id b'.userId b'.year b'.month
      rw [hid', huid', hyear', hmonth', ← hid,
        recalcSum_remove s.txs t hmem hndtx b.id b.userId b.year b.month,
        recalcMatch_of_refOK s.budgets t b hb (href t hmem),
        hspent, hcons b hb]
      cases hc : (t.budgetId == some b.id && t.type == TxType.expense) with
      | false => simp [hc]
      | true => simp [hc, sub_eq_add_neg]

theorem updateTransaction_eq (s : Store) (id uid : Nat) (p : TxPatch)
    (t : Transaction) (hfind : findTx s.txs id uid = some t) :
    updateTransaction s id uid p =
      { txs := s.txs.map (fun u => if u.id == id then p.apply t else u),
        budgets :=
          (match (p.apply t).budgetId with
            | some bid =>
              if (p.apply t).type == TxType.expense
              then incSpent
                (match t.budgetId with
                  | some bid2 => if t.type == TxType.expense
                      then incSpent s.budgets bid2 (-t.amount) else s.budgets
                  | none => s.budgets) bid (p.apply t).amount
              else
                (match t.budgetId with
                  | some bid2 => if t.type == TxType.expense
                      then incSpent s.budgets bid2 (-t.amount) else s.budgets
                  | none => s.budgets)
            | none =>
              (match t.budgetId with
                | some bid2 => if t.type == TxType.expense
                    then incSpent s.budgets bid2 (-t.amount) else s.budgets
                | none => s.budgets)),
        nextId := s.nextId } := by
  unfold updateTransaction
  rw [hfind]

theorem updateTransaction_preserves (s : Store) (id uid : Nat) (p : TxPatch)
    (t : Transaction) (hfind : findTx s.txs id uid = some t)
    (hWF : StoreWF s) (hcons : spentConsistent s)
    (hOK : refOK s.budgets (p.apply t)) :
    StoreWF (updateTransaction s id uid p) ∧
      spentConsistent (updateTransaction s id uid p) := by
  rcases findTx_facts s.txs id uid t hfind with ⟨hmem, hid, _⟩
  unfold StoreWF at hWF
  rcases hWF with ⟨href, hndtx, hndb, hfresh⟩
  rw [updateTransaction_eq s id uid p t hfind]
  constructor
  · refine ⟨?_, ?_, ?_, ?_⟩
    · intro u hu
      apply (condInc_refOK _ (p.apply t) u (p.apply t).amount).mpr
      apply (condInc_refOK s.budgets t u (-t.amount)).mpr
      rcases List.mem_map.mp hu with ⟨v, hv, rfl⟩
      by_cases hc : (v.id == id) = true
      · rw [if_pos hc]
        exact hOK
      · rw [if_neg hc]
        exact href v hv
    · have hids : (s.txs.map (fun u => if u.id == id then p.apply t else u)).map
          (fun u => u.id) = s.txs.map (fun u => u.id) := by
        rw [List.map_map]
        apply List.map_congr_left
        intro v hv
        by_cases hc : (v.id == id) = true
        · have h1 : (p.apply t).id = t.id := rfl
          simp [Function.comp, hc, h1, hid, beq_iff_eq.mp hc]
        · simp [Function.comp, hc]
      rw [hids]
      exact hndtx
    · rw [condInc_ids _ (p.apply t) (p.apply t).amount,
        condInc_ids s.budgets t (-t.amount)]
      exact hndb
    · intro u hu
      rcases List.mem_map.mp hu with ⟨v, hv, rfl⟩
      by_cases hc : (v.id == id) = true
      · rw [if_pos hc]
        show (p.apply t).id < _
        have h1 : (p.apply t).id = t.id := rfl
        rw [h1]
        exact hfresh t hmem
      · rw [if_neg hc]
        exact hfresh v hv
  · intro b' hb'
    rcases condInc_mem _ (p.apply t) (p.apply t).amount b' hb' with
      ⟨b1, hb1, hid1, huid1, hyear1, hmonth1, hspent1⟩
    rcases condInc_mem s.budgets t (-t.amount) b1 hb1 with
      ⟨b, hb, hid2, huid2, hyear2, hmonth2, hspent2⟩
    show b'.spent = recalcSum _ b'.id b'.userId b'.year b'.month
    rw [hid1, huid1, hyear1, hmonth1, hid2, huid2, hyear2, hmonth2,
      hspent1, hspent2, hid2, ← hid,
      recalcSum_replace s.txs t (p.apply t) hmem hndtx b.id b.userId b.year b.month,
      recalcMatch_of_refOK s.budgets t b hb (href t hmem),
      recalcMatch_of_refOK s.budgets (p.apply t) b hb hOK,
      hcons b hb]
    cases hc1 : (t.budgetId == some b.id && t.type == TxType.expense) with
    | false => simp [hc1]
    | true => simp [hc1, sub_eq_add_neg]

theorem txOp_preserves (s : Store) (op : TxOp) (hWF : StoreWF s)
    (hcons : spentConsistent s) (hOK : TxOpOK s op) :
    StoreWF (applyTxOp s op) ∧ spentConsistent (applyTxOp s op) := by
  cases op with
  | create d => exact createTransaction_preserves s d hWF hOK hcons
  | update id uid p =>
    cases hfind : findTx s.txs id uid with
    | none =>
      show StoreWF (updateTransaction s id uid p) ∧
        spentConsistent (updateTransaction s id uid p)
      unfold updateTransaction
      rw [hfind]
      exact ⟨hWF, hcons⟩
    | some t =>
      apply updateTransaction_preserves s id uid p t hfind hWF hcons
      have h := hOK
      unfold TxOpOK at h
      dsimp only at h
      rw [hfind] at h
      exact h
  | delete id uid => exact deleteTransaction_preserves s id uid hWF hcons

theorem txOps_preserve (ops : List TxOp) :
    ∀ s : Store, StoreWF s → spentConsistent s → TxOpsOK s ops →
      StoreWF (applyTxOps s ops) ∧ spentConsistent (applyTxOps s ops) := by
  induction ops with
  | nil =>
    intro s h1 h2 _
    exact ⟨h1, h2⟩
  | cons op ops ih =>
    intro s h1 h2 hops
    have hops' := hops
    unfold TxOpsOK at hops'
    rcases hops' with ⟨hop, hrest⟩
    rcases txOp_preserves s op h1 h2 hop with ⟨h1s, h2s⟩
    exact ih (applyTxOp s op) h1s h2s hrest

/-- C2 (amended): starting from a well-formed store whose budgets are
consistent, after any sequence of create/update/delete operations whose
written transaction versions keep their budget references honest
(belonging to the referenced budget's owner and dated inside its month
window), every budget's incrementally `$inc`-maintained `spent` still
equals the recalculate aggregation value — and actually running the
recalculate operation reports exactly the maintained value
(oldSpent = newSpent = spent). -/
theorem incremental_matches_recompute (s : Store) (ops : List TxOp)
    (hWF : StoreWF s) (hcons : spentConsistent s) (hops : TxOpsOK s ops) :
    spentConsistent (applyTxOps s ops) ∧
    (∀ (id uid : Nat) (b : Budget),
      findBudget (applyTxOps s ops).budgets id uid = some b →
      (recalculateBudget (applyTxOps s ops) id uid).2 =
        some { spent := b.spent, oldSpent := b.spent, newSpent := b.spent }) := by
  rcases txOps_preserve ops s hWF hcons hops with ⟨_, hcons2⟩
  refine ⟨hcons2, ?_⟩
  intro id uid b hb
  rw [recalc_state_eq (applyTxOps s ops) id uid b hb]
  have hmem : b ∈ (applyTxOps s ops).budgets := by
    have h := hb
    unfold findBudget at h
    exact List.mem_of_find?_eq_some h
  have hp : (b.id == id && b.userId == uid) = true := by
    have h := hb
    unfold findBudget at h
    have h2 := List.find?_some h
    exact h2
  simp only [Bool.and_eq_true, beq_iff_eq] at hp
  have hv : recalcSum (applyTxOps s ops).txs b.id uid b.year b.month =
      b.spent := by
    rw [← hp.2]
    exact (hcons2 b hmem).symm
  dsimp only
  rw [hv]

/-- C2 (counterexample): the incremental `$inc` adjustment ignores the
transaction's date while the recompute aggregation filters by the
budget's month window.  Creating (through the actual create handler) an
expense dated April 2024 against a March-2024 budget drives `spent` to
50, while the recompute value — and the recalculate operation — say 0:
the two permanently diverge after a single ordinary create. -/
theorem spent_recompute_divergence_cx :
    findBudget
      (createTransaction
        { txs := [], budgets := [Budget.mk 1 1 5 3 2024 500 0 true], nextId := 1 }
        (TxData.mk 1 "Presente" 50 .expense 5 ⟨2024, 4, 2⟩ false none (some 1))).budgets
      1 1 = some (Budget.mk 1 1 5 3 2024 500 50 true) ∧
    recalcSum
      (createTransaction
        { txs := [], budgets := [Budget.mk 1 1 5 3 2024 500 0 true], nextId := 1 }
        (TxData.mk 1 "Presente" 50 .expense 5 ⟨2024, 4, 2⟩ false none (some 1))).txs
      1 1 2024 3 = 0 ∧
    (recalculateBudget
      (createTransaction
        { txs := [], budgets := [Budget.mk 1 1 5 3 2024 500 0 true], nextId := 1 }
        (TxData.mk 1 "Presente" 50 .expense 5 ⟨2024, 4, 2⟩ false none (some 1)))
      1 1).2 = some { spent := 0, oldSpent := 0, newSpent := 0 } ∧
    (50 : Int) ≠ 0 := by
  refine ⟨by decide, by decide, by decide, by decide⟩

/-- Witness for `incremental_matches_recompute`: the spec's scenario 2 —
create an in-window expense of 50 against the budget, update its amount
to 80, then delete it — starting from an empty, trivially consistent
store; the final store is still consistent. -/
theorem incremental_matches_recompute_witness :
    StoreWF { txs := [], budgets := [Budget.mk 1 1 5 3 2024 500 0 true], nextId := 1 } ∧
    spentConsistent { txs := [], budgets := [Budget.mk 1 1 5 3 2024 500 0 true], nextId := 1 } ∧
    TxOpsOK { txs := [], budgets := [Budget.mk 1 1 5 3 2024 500 0 true], nextId := 1 }
      [TxOp.create (TxData.mk 1 "Almoco" 50 .expense 5 ⟨2024, 3, 10⟩ false none (some 1)),
       TxOp.update 1 1 (TxPatch.mk none (some 80) none none none none none none),
       TxOp.delete 1 1] ∧
    spentConsistent (applyTxOps
      { txs := [], budgets := [Budget.mk 1 1 5 3 2024 500 0 true], nextId := 1 }
      [TxOp.create (TxData.mk 1 "Almoco" 50 .expense 5 ⟨2024, 3, 10⟩ false none (some 1)),
       TxOp.update 1 1 (TxPatch.mk none (some 80) none none none none none none),
       TxOp.delete 1 1]) :=
  ⟨by decide, by decide, by decide,
    (incremental_matches_recompute
      { txs := [], budgets := [Budget.mk 1 1 5 3 2024 500 0 true], nextId := 1 }
      [TxOp.create (TxData.mk 1 "Almoco" 50 .expense 5 ⟨2024, 3, 10⟩ false none (some 1)),
       TxOp.update 1 1 (TxPatch.mk none (some 80) none none none none none none),
       TxOp.delete 1 1]
      (by decide) (by decide) (by decide)).1⟩
